import Mathlib

set_option autoImplicit false
set_option maxRecDepth 20000

/-!
Verification development for the OpenTelemetry logging adapter
(src/autogen/logger/otel_logger.py).

The Python module is shallowly embedded: Python runtime values become the
inductive type PyVal, raised exceptions become the error side of Except,
emitted log records, spans and stdout writes are collected in explicit
output structures, and ambient state (the wall clock string produced by
get_current_ts, the thread id, the local utc offset used by
datetime.timestamp, the randomness consumed by uuid.uuid4, the process
environment) is passed in as explicit parameters.

The helpers to_dict and get_current_ts live in autogen/logger/logger_utils.py,
which is not part of the provided sources; to_dict is modelled from the
specification text and get_current_ts is replaced by an explicit clock
parameter.
-/

namespace AutogenOtel

/-- Python runtime values as observed by the logger module.  An opaque object
carries its class name (also standing in for the identical qualified name),
its module name, its id(), whether it is an instance of autogen.Agent, and its
attribute dictionary; calling a zero-argument method such as to_json is
modelled by storing the value the call returns under the attribute name. -/
inductive PyVal where
  | none : PyVal
  | bool (b : Bool) : PyVal
  | int (n : Int) : PyVal
  | str (s : String) : PyVal
  | list (xs : List PyVal) : PyVal
  | dict (entries : List (PyVal × PyVal)) : PyVal
  | obj (className moduleName : String) (oid : Nat) (isAgent : Bool)
        (attrs : List (String × PyVal)) : PyVal

/-- Python getattr restricted to the attributes stored on an object; values of
builtin types expose none of the attribute names this module looks up. -/
def PyVal.getattr : PyVal → String → Option PyVal
  | .obj _ _ _ _ attrs, a => attrs.lookup a
  | _, _ => Option.none

/-- type(v).__name__ (and, for the classes appearing here, __qualname__). -/
def pyClassName : PyVal → String
  | .none => "NoneType"
  | .bool _ => "bool"
  | .int _ => "int"
  | .str _ => "str"
  | .list _ => "list"
  | .dict _ => "dict"
  | .obj cn _ _ _ _ => cn

/-- v.__module__, found on the class of the value. -/
def pyModule : PyVal → String
  | .obj _ mn _ _ _ => mn
  | _ => "builtins"

/-- id(v).  Identity of builtin scalars is irrelevant to every property
proved below, so it is fixed at 0 there. -/
def pyId : PyVal → Nat
  | .obj _ _ oid _ _ => oid
  | _ => 0

/-- str(v).  Faithful on the scalars the module converts; container reprs are
abbreviated because no record field ever holds one in the proofs below. -/
def pyStr : PyVal → String
  | .str s => s
  | .int n => toString n
  | .bool true => "True"
  | .bool false => "False"
  | .none => "None"
  | .list _ => "[...]"
  | .dict _ => "\x7b...\x7d"
  | .obj cn mn _ _ _ => "<" ++ mn ++ "." ++ cn ++ " object>"

/-- isinstance(v, Agent). -/
def isAgentVal : PyVal → Bool
  | .obj _ _ _ ia _ => ia
  | _ => false

/-- The exception classes raised along the paths of the module. -/
inductive PyErr where
  | attributeError (msg : String) : PyErr
  | typeError (msg : String) : PyErr
  | valueError (msg : String) : PyErr
  | nameError (msg : String) : PyErr

/-- str(e), as interpolated into the diagnostic messages. -/
def pyErrStr : PyErr → String
  | .attributeError m => m
  | .typeError m => m
  | .valueError m => m
  | .nameError m => m

/-- Attribute access that raises AttributeError when the name is absent. -/
def pyGetattrE (v : PyVal) (a : String) : Except PyErr PyVal :=
  match v.getattr a with
  | some w => .ok w
  | Option.none => .error (.attributeError (pyClassName v ++ " object has no attribute " ++ a))

/-- JSON documents, the image of json.dumps. -/
inductive Json where
  | null : Json
  | bool (b : Bool) : Json
  | num (n : Int) : Json
  | str (s : String) : Json
  | arr (xs : List Json) : Json
  | obj (kvs : List (String × Json)) : Json

/-- Hexadecimal digit characters (lowercase), as produced by %x formatting. -/
def hexChar : Nat → Char
  | 0 => '0' | 1 => '1' | 2 => '2' | 3 => '3' | 4 => '4'
  | 5 => '5' | 6 => '6' | 7 => '7' | 8 => '8' | 9 => '9'
  | 10 => 'a' | 11 => 'b' | 12 => 'c' | 13 => 'd' | 14 => 'e'
  | _ => 'f'

/-- A four-digit \uXXXX escape. -/
def uEscape4 (n : Nat) : String :=
  "\\u" ++ String.mk [hexChar (n / 4096 % 16), hexChar (n / 256 % 16),
                      hexChar (n / 16 % 16), hexChar (n % 16)]

/-- The escaping applied per character by json.dumps with ensure_ascii=True:
the two mandatory escapes, the short control escapes, \uXXXX for other
control characters and for everything outside printable ASCII, surrogate
pairs above the BMP. -/
def escapeChar (c : Char) : String :=
  if c = '"' then "\\\""
  else if c = '\\' then "\\\\"
  else if c = '\n' then "\\n"
  else if c = '\t' then "\\t"
  else if c = '\r' then "\\r"
  else if c.toNat = 8 then "\\b"
  else if c.toNat = 12 then "\\f"
  else if c.toNat < 32 ∨ c.toNat ≥ 127 then
    if c.toNat < 65536 then uEscape4 c.toNat
    else uEscape4 (55296 + (c.toNat - 65536) / 1024) ++ uEscape4 (56320 + (c.toNat - 65536) % 1024)
  else String.singleton c

def escapeString (s : String) : String :=
  s.data.foldl (fun acc c => acc ++ escapeChar c) ""

mutual
/-- Serialization of a JSON document to its single-line textual form, with
the default CPython separators (comma-space and colon-space). -/
def renderJson : Json → String
  | .null => "null"
  | .bool true => "true"
  | .bool false => "false"
  | .num n => toString n
  | .str s => "\"" ++ escapeString s ++ "\""
  | .arr xs => "[" ++ renderJsonList xs ++ "]"
  | .obj kvs => "\x7b" ++ renderJsonEntries kvs ++ "\x7d"

def renderJsonList : List Json → String
  | [] => ""
  | [x] => renderJson x
  | x :: y :: r => renderJson x ++ ", " ++ renderJsonList (y :: r)

def renderJsonEntries : List (String × Json) → String
  | [] => ""
  | [(k, v)] => "\"" ++ escapeString k ++ "\": " ++ renderJson v
  | (k, v) :: e :: r =>
      "\"" ++ escapeString k ++ "\": " ++ renderJson v ++ ", " ++ renderJsonEntries (e :: r)
end

/-- The coercion json.dumps applies to mapping keys: strings pass through,
int, bool and None keys are stringified, every other key raises TypeError
(the default function is never consulted for keys). -/
def jsonKeyStr : PyVal → Except PyErr String
  | .str s => .ok s
  | .int n => .ok (toString n)
  | .bool true => .ok "true"
  | .bool false => .ok "false"
  | .none => .ok "null"
  | v => .error (.typeError ("keys must be str, int, float, bool or None, not " ++ pyClassName v))

mutual
/-- json.dumps(v, default=dflt), at the level of the document it writes:
scalars map to JSON scalars, lists to arrays, dicts to objects in entry
order after key coercion, and any opaque object is handed to the default
function, whose returned string is then encoded as a JSON string.  Errors
of key coercion and of the default function propagate as the raised
exception of the call. -/
def jsonDumps (dflt : PyVal → Except PyErr String) : PyVal → Except PyErr Json
  | .none => .ok .null
  | .bool b => .ok (.bool b)
  | .int n => .ok (.num n)
  | .str s => .ok (.str s)
  | .list xs =>
      match jsonDumpsList dflt xs with
      | .ok js => .ok (.arr js)
      | .error e => .error e
  | .dict kvs =>
      match jsonDumpsEntries dflt kvs with
      | .ok es => .ok (.obj es)
      | .error e => .error e
  | .obj cn mn oid ia attrs =>
      match dflt (.obj cn mn oid ia attrs) with
      | .ok s => .ok (.str s)
      | .error e => .error e

def jsonDumpsList (dflt : PyVal → Except PyErr String) : List PyVal → Except PyErr (List Json)
  | [] => .ok []
  | v :: r =>
      match jsonDumps dflt v with
      | .ok j =>
          match jsonDumpsList dflt r with
          | .ok js => .ok (j :: js)
          | .error e => .error e
      | .error e => .error e

def jsonDumpsEntries (dflt : PyVal → Except PyErr String) :
    List (PyVal × PyVal) → Except PyErr (List (String × Json))
  | [] => .ok []
  | (k, v) :: r =>
      match jsonKeyStr k with
      | .ok ks =>
          match jsonDumps dflt v with
          | .ok jv =>
              match jsonDumpsEntries dflt r with
              | .ok es => .ok ((ks, jv) :: es)
              | .error e => .error e
          | .error e => .error e
      | .error e => .error e
end

/-- The default function of safe_serialize: str(o.to_json()) when the object
has a to_json attribute, the non-serializable placeholder naming the type
otherwise. -/
def pySafeDefault (v : PyVal) : Except PyErr String :=
  match v.getattr "to_json" with
  | some j => .ok (pyStr j)
  | Option.none => .ok ("<<non-serializable: " ++ pyClassName v ++ ">>")

/-- The lambda default used inside log_event: always the placeholder. -/
def pyEventDefault (v : PyVal) : Except PyErr String :=
  .ok ("<<non-serializable: " ++ pyClassName v ++ ">>")

/-- json.dumps without a default function: opaque objects raise TypeError. -/
def pyNoDefault (v : PyVal) : Except PyErr String :=
  .error (.typeError ("Object of type " ++ pyClassName v ++ " is not JSON serializable"))

/-- safe_serialize from otel_logger.py: json.dumps with the to_json-or-
placeholder default, returning the rendered text, raising whatever
json.dumps raises. -/
def safe_serialize (v : PyVal) : Except PyErr String :=
  match jsonDumps pySafeDefault v with
  | .ok j => .ok (renderJson j)
  | .error e => .error e

/-- A mapping key equal to one of the excluded key strings. -/
def isExcludedKey (ex : List String) : PyVal → Bool
  | .str s => ex.contains s
  | _ => false

mutual
/-- Modelled from the spec: to_dict lives in autogen/logger/logger_utils.py,
which is not among the provided sources.  Following the specification text,
it projects an arbitrary config-like structure into a plain mapping, dropping
keys present in an exclusion set (used to redact secrets such as API keys and
connection tokens before they are logged) and not mutating its input; the
projection is applied recursively, object attribute dictionaries become plain
mappings, and scalars pass through unchanged. -/
def to_dict : PyVal → List String → PyVal
  | .dict kvs, ex => .dict (to_dictEntries kvs ex)
  | .list xs, ex => .list (to_dictList xs ex)
  | .obj _ _ _ _ attrs, ex => .dict (to_dictAttrs attrs ex)
  | v, _ => v

def to_dictEntries : List (PyVal × PyVal) → List String → List (PyVal × PyVal)
  | [], _ => []
  | (k, v) :: r, ex =>
      if isExcludedKey ex k then to_dictEntries r ex
      else (k, to_dict v ex) :: to_dictEntries r ex

def to_dictList : List PyVal → List String → List PyVal
  | [], _ => []
  | v :: r, ex => to_dict v ex :: to_dictList r ex

def to_dictAttrs : List (String × PyVal) → List String → List (PyVal × PyVal)
  | [], _ => []
  | (a, v) :: r, ex =>
      if ex.contains a then to_dictAttrs r ex
      else (.str a, to_dict v ex) :: to_dictAttrs r ex
end

/-! ## Calendar date-times

datetime.strptime with the fixed format string, and the conversion
int(dt.timestamp() * 1e9) used for span instants.  The wall clock of
get_current_ts is an explicit string parameter of every operation, and the
local utc offset consumed by datetime.timestamp on naive values is an
explicit integer parameter. -/

/-- A parsed calendar date-time with microsecond precision. -/
structure DateTime where
  year : Nat
  month : Nat
  day : Nat
  hour : Nat
  minute : Nat
  second : Nat
  microsecond : Nat
deriving DecidableEq

/-- Gregorian leap year rule. -/
def isLeap (y : Nat) : Bool := (y % 4 == 0 && y % 100 != 0) || y % 400 == 0

/-- Length of a month, February depending on leap status. -/
def daysInMonth (leap : Bool) : Nat → Nat
  | 1 => 31
  | 2 => if leap then 29 else 28
  | 3 => 31
  | 4 => 30
  | 5 => 31
  | 6 => 30
  | 7 => 31
  | 8 => 31
  | 9 => 30
  | 10 => 31
  | 11 => 30
  | 12 => 31
  | _ => 0

/-- Days elapsed in a year before the first of the given month. -/
def daysBeforeMonth (leap : Bool) : Nat → Nat
  | 1 => 0
  | 2 => 31
  | 3 => if leap then 60 else 59
  | 4 => if leap then 91 else 90
  | 5 => if leap then 121 else 120
  | 6 => if leap then 152 else 151
  | 7 => if leap then 182 else 181
  | 8 => if leap then 213 else 212
  | 9 => if leap then 244 else 243
  | 10 => if leap then 274 else 273
  | 11 => if leap then 305 else 304
  | 12 => if leap then 335 else 334
  | _ => 0

def daysInYearN (y : Nat) : Nat := if isLeap y then 366 else 365

/-- Days from 0001-01-01 to January first of the given year, by the closed
form the CPython datetime module uses; the origin constant cancels in every
epoch difference below. -/
def daysBeforeYear (y : Nat) : Nat :=
  (y - 1) * 365 + (y - 1) / 4 - (y - 1) / 100 + (y - 1) / 400

/-- Day number of a date from the calendar origin. -/
def dateOrdinal (dt : DateTime) : Nat :=
  daysBeforeYear dt.year + daysBeforeMonth (isLeap dt.year) dt.month + (dt.day - 1)

def epochOrdinal : Nat := daysBeforeYear 1970

/-- Seconds from 1970-01-01 00:00:00 of the same calendar to the date-time,
before the local utc offset is applied. -/
def epochSeconds (dt : DateTime) : Int :=
  ((dateOrdinal dt : Int) - (epochOrdinal : Int)) * 86400
    + dt.hour * 3600 + dt.minute * 60 + dt.second

/-- int(dt.timestamp() * 1e9) on a naive date-time under the given local utc
offset in seconds: nanoseconds since the epoch. -/
def toNs (tzOffset : Int) (dt : DateTime) : Int :=
  (epochSeconds dt - tzOffset) * 1000000000 + dt.microsecond * 1000

/-- The field ranges accepted by strptime plus the datetime constructor. -/
def validDT (dt : DateTime) : Prop :=
  1 ≤ dt.year ∧ dt.year ≤ 9999 ∧
  1 ≤ dt.month ∧ dt.month ≤ 12 ∧
  1 ≤ dt.day ∧ dt.day ≤ daysInMonth (isLeap dt.year) dt.month ∧
  dt.hour ≤ 23 ∧ dt.minute ≤ 59 ∧ dt.second ≤ 59 ∧ dt.microsecond ≤ 999999

instance (dt : DateTime) : Decidable (validDT dt) := by
  unfold validDT; infer_instance

/-- Mixed-radix linearization of a date-time; the calendar order on valid
date-times is exactly the order of these keys. -/
def dtKey (dt : DateTime) : Nat :=
  (((((dt.year * 13 + dt.month) * 32 + dt.day) * 24 + dt.hour) * 60 + dt.minute) * 60
      + dt.second) * 1000000 + dt.microsecond

/-- Longest leading run of decimal digits. -/
def spanDigits : List Char → List Char × List Char
  | [] => ([], [])
  | c :: r =>
      if c.isDigit then
        let (ds, rest) := spanDigits r
        (c :: ds, rest)
      else ([], c :: r)

def digitsToNat (ds : List Char) : Nat :=
  ds.foldl (fun a c => a * 10 + (c.toNat - 48)) 0

def expectChar (c : Char) : List Char → Option (List Char)
  | x :: r => if x = c then some r else Option.none
  | [] => Option.none

/-- The character-level parse of the format %Y-%m-%d %H:%M:%S.%f: digit runs
of the widths the strptime pattern accepts, the literal separators, no
unconverted trailing data, and right-padding of the fractional digits to
microseconds. -/
def parseDT (cs : List Char) : Option DateTime := do
  let (yds, r) := spanDigits cs
  if yds.length = 0 ∨ 4 < yds.length then Option.none else do
  let r ← expectChar '-' r
  let (mds, r) := spanDigits r
  if mds.length = 0 ∨ 2 < mds.length then Option.none else do
  let r ← expectChar '-' r
  let (dds, r) := spanDigits r
  if dds.length = 0 ∨ 2 < dds.length then Option.none else do
  let r ← expectChar ' ' r
  let (hds, r) := spanDigits r
  if hds.length = 0 ∨ 2 < hds.length then Option.none else do
  let r ← expectChar ':' r
  let (minds, r) := spanDigits r
  if minds.length = 0 ∨ 2 < minds.length then Option.none else do
  let r ← expectChar ':' r
  let (sds, r) := spanDigits r
  if sds.length = 0 ∨ 2 < sds.length then Option.none else do
  let r ← expectChar '.' r
  let (fds, r) := spanDigits r
  if fds.length = 0 ∨ 6 < fds.length then Option.none else
  if r = [] then
    some { year := digitsToNat yds, month := digitsToNat mds, day := digitsToNat dds,
           hour := digitsToNat hds, minute := digitsToNat minds, second := digitsToNat sds,
           microsecond := digitsToNat fds * 10 ^ (6 - fds.length) }
  else Option.none

/-- datetime.strptime(s, the fixed format): the parsed fields when they match
the pattern and lie in the ranges the datetime constructor accepts, a raised
ValueError otherwise. -/
def strptime (s : String) : Except PyErr DateTime :=
  match parseDT s.data with
  | some dt =>
      if validDT dt then .ok dt
      else .error (.valueError ("time data " ++ s ++ " is out of range for the format"))
  | Option.none =>
      .error (.valueError ("time data " ++ s ++ " does not match format %Y-%m-%d %H:%M:%S.%f"))

/-! ## Session identifiers -/

/-- Zero-padded lowercase hexadecimal rendering to a fixed width, least
significant digit last. -/
def toHexList : Nat → Nat → List Char
  | _, 0 => []
  | n, l + 1 => toHexList (n / 16) l ++ [hexChar (n % 16)]

/-- str(uuid.uuid4()) as a function of the 128 random bits consumed: the five
dash-separated hex groups, with the version nibble forced to 4 and the
variant bits forced to the 10 pattern exactly as uuid4 does. -/
def formatUuid4 (r : Nat) : String :=
  String.mk
    (toHexList (r / 2 ^ 96 % 2 ^ 32) 8 ++ '-' ::
     toHexList (r / 2 ^ 80 % 2 ^ 16) 4 ++ '-' ::
     toHexList (16384 + r / 2 ^ 64 % 4096) 4 ++ '-' ::
     toHexList (32768 + r / 2 ^ 48 % 16384) 4 ++ '-' ::
     toHexList (r % 2 ^ 48) 12)

def isHexDigitB (c : Char) : Bool := c.isDigit || ('a' ≤ c && c ≤ 'f')

/-- Syntactic validity of a version-4 UUID string: the 8-4-4-4-12 dash
layout, lowercase hex digits throughout, the version digit 4 and a variant
digit among 8, 9, a, b. -/
def isValidUuidChars (cs : List Char) : Prop :=
  ∃ g1 g2 g3 g4 g5 : List Char,
    cs = g1 ++ '-' :: g2 ++ '-' :: g3 ++ '-' :: g4 ++ '-' :: g5 ∧
    g1.length = 8 ∧ g2.length = 4 ∧ g3.length = 4 ∧ g4.length = 4 ∧ g5.length = 12 ∧
    (∀ c ∈ g1 ++ g2 ++ g3 ++ g4 ++ g5, isHexDigitB c = true) ∧
    g3.head? = some '4' ∧
    (∃ c, g4.head? = some c ∧ (c = '8' ∨ c = '9' ∨ c = 'a' ∨ c = 'b'))

/-! ## The adapter -/

/-- The exporter pair selected at construction. -/
inductive ExporterKind where
  | otlp : ExporterKind
  | azureMonitor : ExporterKind
deriving DecidableEq

/-- The instance attributes of OtelLogger that the operations read. -/
structure LoggerState where
  config : PyVal
  session_id : String
  exporterKind : ExporterKind

/-- One write to a logging channel.  info carries a structured record whose
logged body is its rendered JSON text; infoMsg is the plain announcement of
start; err is a diagnostic on self.logger at error severity; modErr is a
diagnostic on the module-level logger. -/
inductive Emission where
  | info (record : Json) : Emission
  | infoMsg (msg : String) : Emission
  | err (msg : String) : Emission
  | modErr (msg : String) : Emission

/-- The body string actually handed to the logging channel. -/
def emissionBody : Emission → String
  | .info j => renderJson j
  | .infoMsg m => m
  | .err m => m
  | .modErr m => m

/-- Attribute values accepted by span.set_attribute. -/
inductive AttrVal where
  | str (s : String) : AttrVal
  | num (n : Int) : AttrVal
deriving DecidableEq

/-- The coercion applied when a PyVal is passed to set_attribute. -/
def attrOf : PyVal → AttrVal
  | .str s => .str s
  | .int n => .num n
  | v => .str (pyStr v)

/-- A recorded span: explicit start and end instants in nanoseconds since the
epoch when supplied, the tracer clock otherwise. -/
structure Span where
  name : String
  startNs : Option Int
  endNs : Option Int
  attrs : List (String × AttrVal)

/-- Everything one public operation makes observable. -/
structure OpOut where
  emits : List Emission
  spans : List Span
  stdout : List PyVal

def mergeOut (a b : OpOut) : OpOut :=
  { emits := a.emits ++ b.emits, spans := a.spans ++ b.spans, stdout := a.stdout ++ b.stdout }

namespace OtelLogger

/-- OtelLogger.__init__: the session id is generated from the uuid4
randomness, and the exporter pair is chosen from the EXPORTER_TYPE
environment setting with default otlp.  Any other value selects the Azure
Monitor branch, whose exporter classes the module never imports, so that
branch raises NameError and construction fails. -/
def init (config : PyVal) (env : String → Option String) (r : Nat) :
    Except PyErr LoggerState :=
  if (env "EXPORTER_TYPE").getD "otlp" = "otlp" then
    .ok { config := config, session_id := formatUuid4 r, exporterKind := .otlp }
  else
    .error (.nameError "name AzureMonitorLogExporter is not defined")

/-- What start returns together with what it emits. -/
structure StartOut where
  emits : List Emission
  ret : String

/-- OtelLogger.start: announce the session on self.logger inside a guard
whose except reports on the module logger; the finally clause returns the
session id in every case.  Whether the announcement raises, and with which
exception, is an environment oracle. -/
def start (st : LoggerState) (announceErr : Option PyErr) : StartOut :=
  match announceErr with
  | Option.none =>
      { emits := [.infoMsg ("Started new session with Session ID: " ++ st.session_id)],
        ret := st.session_id }
  | some e =>
      { emits := [.modErr ("[otel_logger] Failed to create logging file: " ++ pyErrStr e)],
        ret := st.session_id }

/-- The source-name resolution log_chat_completion performs before its try
block: a string is its own name, None degrades to Unknown, anything else
must expose a name attribute or AttributeError escapes to the caller. -/
def resolveSourceName (source : PyVal) : Except PyErr PyVal :=
  match source with
  | .str s => .ok (.str s)
  | .none => .ok (.str "Unknown")
  | v =>
      match v.getattr "name" with
      | some nv => .ok nv
      | Option.none =>
          .error (.attributeError (pyClassName v ++ " object has no attribute name"))

/-- The record dict literal of log_chat_completion, as a function of the
already-read usage attributes. -/
def lccRecord (st : LoggerState) (now : String) (tid : Nat)
    (invocation_id : String) (client_id wrapper_id : Int)
    (request response : PyVal) (is_cached : Int) (cost : Int)
    (start_time : String) (source_name pt ct tt : PyVal) : PyVal :=
  .dict
    [(.str "invocation_id", .str invocation_id),
     (.str "client_id", .int client_id),
     (.str "wrapper_id", .int wrapper_id),
     (.str "request", to_dict request []),
     (.str "response", .str (pyStr response)),
     (.str "is_cached", .int is_cached),
     (.str "cost", .int cost),
     (.str "start_time", .str start_time),
     (.str "end_time", .str now),
     (.str "thread_id", .int tid),
     (.str "source_name", source_name),
     (.str "prompt_tokens", pt),
     (.str "completion_tokens", ct),
     (.str "total_tokens", tt)]

/-- The guarded body of log_chat_completion: read the usage counts, build
and dump the record, parse both timestamps, record the llm_span with
explicit start and end instants and the numeric usage attributes, then log
the record. -/
def lccBody (st : LoggerState) (now : String) (tz : Int) (tid : Nat)
    (invocation_id : String) (client_id wrapper_id : Int)
    (request response : PyVal) (is_cached : Int) (cost : Int)
    (start_time : String) (source_name : PyVal) : Except PyErr OpOut :=
  match pyGetattrE response "usage" with
  | .error e => .error e
  | .ok usage =>
  match pyGetattrE usage "prompt_tokens" with
  | .error e => .error e
  | .ok pt =>
  match pyGetattrE usage "completion_tokens" with
  | .error e => .error e
  | .ok ct =>
  match pyGetattrE usage "total_tokens" with
  | .error e => .error e
  | .ok tt =>
  match jsonDumps pyNoDefault (lccRecord st now tid invocation_id client_id wrapper_id
      request response is_cached cost start_time source_name pt ct tt) with
  | .error e => .error e
  | .ok recordJson =>
  match strptime start_time with
  | .error e => .error e
  | .ok sdt =>
  match strptime now with
  | .error e => .error e
  | .ok edt =>
      .ok { emits := [.info recordJson],
            spans := [{ name := "llm_span",
                        startNs := some (toNs tz sdt),
                        endNs := some (toNs tz edt),
                        attrs := [("data", .str (renderJson recordJson)),
                                  ("cost", .num cost),
                                  ("source_name", attrOf source_name),
                                  ("prompt_tokens", attrOf pt),
                                  ("completion_tokens", attrOf ct),
                                  ("total_tokens", attrOf tt)] }],
            stdout := [] }

/-- OtelLogger.log_chat_completion.  The source-name resolution happens
before the try block, so its AttributeError is the one failure that escapes;
every failure inside the body is caught and reported on the error channel. -/
def log_chat_completion (st : LoggerState) (now : String) (tz : Int) (tid : Nat)
    (invocation_id : String) (client_id wrapper_id : Int) (source : PyVal)
    (request response : PyVal) (is_cached : Int) (cost : Int)
    (start_time : String) : Except PyErr OpOut :=
  match resolveSourceName source with
  | .error e => .error e
  | .ok source_name =>
      .ok (match lccBody st now tz tid invocation_id client_id wrapper_id request response
                is_cached cost start_time source_name with
        | .ok out => out
        | .error e =>
            { emits := [.err ("[otel_logger] Failed to log chat completion: " ++ pyErrStr e)],
              spans := [], stdout := [] })

/-- The agent_name expression of log_new_agent. -/
def lnaAgentName (agent : PyVal) : PyVal :=
  match agent.getattr "name" with
  | some PyVal.none => .str ""
  | some nv => nv
  | Option.none => .str ""

/-- The wrapper_id expression of log_new_agent: agent.client.wrapper_id when
a non-None client attribute exists, the empty string otherwise, passed
through to_dict. -/
def lnaWrapperId (agent : PyVal) : Except PyErr PyVal :=
  match agent.getattr "client" with
  | some PyVal.none => .ok (to_dict (.str "") [])
  | some c =>
      match pyGetattrE c "wrapper_id" with
      | .ok w => .ok (to_dict w [])
      | .error e => .error e
  | Option.none => .ok (to_dict (.str "") [])

/-- The guarded body of log_new_agent. -/
def lnaBody (st : LoggerState) (now : String) (tid : Nat) (agent : PyVal) :
    Except PyErr OpOut :=
  match lnaWrapperId agent with
  | .error e => .error e
  | .ok wrapper_id_val =>
  match jsonDumps pyNoDefault (.dict
    [(.str "id", .int (pyId agent)),
     (.str "agent_name", lnaAgentName agent),
     (.str "wrapper_id", wrapper_id_val),
     (.str "session_id", .str st.session_id),
     (.str "current_time", .str now),
     (.str "agent_type", .str (pyClassName agent)),
     (.str "thread_id", .int tid)]) with
  | .error e => .error e
  | .ok j => .ok { emits := [.info j], spans := [], stdout := [] }

/-- OtelLogger.log_new_agent: the whole body is guarded.  The init_args
parameter is accepted and ignored exactly as in the source, where the args
field is commented out. -/
def log_new_agent (st : LoggerState) (now : String) (tid : Nat)
    (agent : PyVal) (init_args : PyVal) : OpOut :=
  match lnaBody st now tid agent with
  | .ok out => out
  | .error e =>
      { emits := [.err ("[otel_logger] Failed to log new agent: " ++ pyErrStr e)],
        spans := [], stdout := [] }

/-- The source_name record field shared by log_event and log_function_use:
str of the name attribute when present, the raw source object otherwise. -/
def sourceNameField (source : PyVal) : PyVal :=
  match source.getattr "name" with
  | some nv => .str (pyStr nv)
  | Option.none => source

/-- The optional explicit span start of the agent branch of log_event, from
a start_time keyword argument when one is present and not None. -/
def leStartNs (tz : Int) (kwargs : List (String × PyVal)) : Except PyErr (Option Int) :=
  match kwargs.lookup "start_time" with
  | some PyVal.none => .ok Option.none
  | some (.str s) =>
      match strptime s with
      | .ok d => .ok (some (toNs tz d))
      | .error e => .error e
  | some v => .error (.typeError ("strptime() argument 1 must be str, not " ++ pyClassName v))
  | Option.none => .ok Option.none

/-- The guarded agent branch of log_event: optional explicit span start from
a start_time keyword, the agent-shaped record, the named span, the record
emission. -/
def leAgentBody (st : LoggerState) (now : String) (tz : Int) (tid : Nat)
    (source : PyVal) (name : String) (kwargs : List (String × PyVal))
    (json_args : String) : Except PyErr OpOut :=
  match leStartNs tz kwargs with
  | .error e => .error e
  | .ok startNs =>
  match jsonDumps pyNoDefault (.dict
    [(.str "source_id", .int (pyId source)),
     (.str "source_name", sourceNameField source),
     (.str "event_name", .str name),
     (.str "agent_module", .str (pyModule source)),
     (.str "agent_class", .str (pyClassName source)),
     (.str "json_state", .str json_args),
     (.str "timestamp", .str now),
     (.str "thread_id", .int tid)]) with
  | .error e => .error e
  | .ok j =>
  match pyGetattrE source "name" with
  | .error e => .error e
  | .ok nameAttr =>
      .ok { emits := [.info j],
            spans := [{ name := pyStr nameAttr ++ ":" ++ name,
                        startNs := startNs,
                        endNs := Option.none,
                        attrs := [("source_name", attrOf nameAttr),
                                  ("event_name", .str name),
                                  ("data", .str (renderJson j))] }],
            stdout := [] }

/-- The guarded non-agent branch of log_event: the short record, no span. -/
def leOtherBody (st : LoggerState) (now : String) (tid : Nat)
    (source : PyVal) (name : String) (json_args : String) : Except PyErr OpOut :=
  match jsonDumps pyNoDefault (.dict
    [(.str "source_id", .int (pyId source)),
     (.str "source_name", sourceNameField source),
     (.str "event_name", .str name),
     (.str "json_state", .str json_args),
     (.str "timestamp", .str now),
     (.str "thread_id", .int tid)]) with
  | .error e => .error e
  | .ok j => .ok { emits := [.info j], spans := [], stdout := [] }

/-- The keyword arguments of log_event as the Python dict the module passes
to json.dumps and print. -/
def kwargsDict (kwargs : List (String × PyVal)) : PyVal :=
  .dict (kwargs.map fun kv => (.str kv.1, kv.2))

/-- OtelLogger.log_event.  The kwargs are dumped with the placeholder
default and printed to stdout before any guard is entered, so a failure of
that dump (a non-scalar mapping key below the kwargs) escapes to the caller;
both branches afterwards are guarded. -/
def log_event (st : LoggerState) (now : String) (tz : Int) (tid : Nat)
    (source : PyVal) (name : String) (kwargs : List (String × PyVal)) :
    Except PyErr OpOut :=
  match jsonDumps pyEventDefault (kwargsDict kwargs) with
  | .error e => .error e
  | .ok jsonArgsJ =>
      let json_args := renderJson jsonArgsJ
      let printed : OpOut := { emits := [], spans := [], stdout := [kwargsDict kwargs] }
      if isAgentVal source then
        .ok (mergeOut printed
          (match leAgentBody st now tz tid source name kwargs json_args with
           | .ok out => out
           | .error e =>
               { emits := [.err ("[otel_logger] Failed to log event " ++ pyErrStr e)],
                 spans := [], stdout := [] }))
      else
        .ok (mergeOut printed
          (match leOtherBody st now tid source name json_args with
           | .ok out => out
           | .error e =>
               { emits := [.err ("[otel_logger] Failed to log event " ++ pyErrStr e)],
                 spans := [], stdout := [] }))

/-- The exclusion tuple passed to to_dict by log_new_wrapper. -/
def wrapperExcludeKeys : List String :=
  ["self", "__class__", "api_key", "organization", "base_url",
   "azure_endpoint", "azure_ad_token", "azure_ad_token_provider"]

/-- The guarded body of log_new_wrapper: redact the init args through
to_dict, dump them, embed the rendered text as json_state, dump and emit the
record. -/
def lnwBody (st : LoggerState) (now : String) (tid : Nat)
    (wrapper : PyVal) (init_args : PyVal) : Except PyErr OpOut :=
  match jsonDumps pyNoDefault (to_dict init_args wrapperExcludeKeys) with
  | .error e => .error e
  | .ok argsJ =>
  match jsonDumps pyNoDefault (.dict
    [(.str "wrapper_id", .int (pyId wrapper)),
     (.str "session_id", .str st.session_id),
     (.str "json_state", .str (renderJson argsJ)),
     (.str "timestamp", .str now),
     (.str "thread_id", .int tid)]) with
  | .error e => .error e
  | .ok j => .ok { emits := [.info j], spans := [], stdout := [] }

/-- OtelLogger.log_new_wrapper: the whole body is guarded. -/
def log_new_wrapper (st : LoggerState) (now : String) (tid : Nat)
    (wrapper : PyVal) (init_args : PyVal) : OpOut :=
  match lnwBody st now tid wrapper init_args with
  | .ok out => out
  | .error e =>
      { emits := [.err ("[otel_logger] Failed to log new wrapper " ++ pyErrStr e)],
        spans := [], stdout := [] }

/-- The guarded body of log_new_client: the init args are dumped directly,
with no default and no redaction. -/
def lncBody (st : LoggerState) (now : String) (tid : Nat)
    (client wrapper : PyVal) (init_args : PyVal) : Except PyErr OpOut :=
  match jsonDumps pyNoDefault init_args with
  | .error e => .error e
  | .ok initJ =>
  match jsonDumps pyNoDefault (.dict
    [(.str "client_id", .int (pyId client)),
     (.str "wrapper_id", .int (pyId wrapper)),
     (.str "session_id", .str st.session_id),
     (.str "class", .str (pyClassName client)),
     (.str "json_state", .str (renderJson initJ)),
     (.str "timestamp", .str now),
     (.str "thread_id", .int tid)]) with
  | .error e => .error e
  | .ok j => .ok { emits := [.info j], spans := [], stdout := [] }

/-- OtelLogger.log_new_client: the whole body is guarded. -/
def log_new_client (st : LoggerState) (now : String) (tid : Nat)
    (client wrapper : PyVal) (init_args : PyVal) : OpOut :=
  match lncBody st now tid client wrapper init_args with
  | .ok out => out
  | .error e =>
      { emits := [.err ("[otel_logger] Failed to log new client " ++ pyErrStr e)],
        spans := [], stdout := [] }

/-- The guarded body of log_function_use: safe-serialize the args and the
returned value, dump and emit the record, record the function_span with the
tracer clock. -/
def lfuBody (st : LoggerState) (now : String) (tid : Nat)
    (source : PyVal) (args returns : PyVal) : Except PyErr OpOut :=
  match safe_serialize args with
  | .error e => .error e
  | .ok ia =>
  match safe_serialize returns with
  | .error e => .error e
  | .ok rets =>
  match jsonDumps pyNoDefault (.dict
    [(.str "source_id", .int (pyId source)),
     (.str "source_name", sourceNameField source),
     (.str "agent_module", .str (pyModule source)),
     (.str "agent_class", .str (pyClassName source)),
     (.str "timestamp", .str now),
     (.str "thread_id", .int tid),
     (.str "input_args", .str ia),
     (.str "returns", .str rets)]) with
  | .error e => .error e
  | .ok j =>
      .ok { emits := [.info j],
            spans := [{ name := "function_span",
                        startNs := Option.none,
                        endNs := Option.none,
                        attrs := [("source_name", attrOf (sourceNameField source)),
                                  ("data", .str (renderJson j))] }],
            stdout := [] }

/-- OtelLogger.log_function_use: the whole body is guarded. -/
def log_function_use (st : LoggerState) (now : String) (tid : Nat)
    (source : PyVal) (func : PyVal) (args returns : PyVal) : OpOut :=
  match lfuBody st now tid source args returns with
  | .ok out => out
  | .error e =>
      { emits := [.err ("[otel_logger] Failed to log function use " ++ pyErrStr e)],
        spans := [], stdout := [] }

/-- OtelLogger.get_connection: a deliberate no-op. -/
def get_connection (st : LoggerState) : Unit := ()

end OtelLogger

/-! ## Observation helpers used by the statements below -/

/-- A mapping key that json.dumps accepts: str, int, bool or None. -/
def scalarKeyB : PyVal → Bool
  | .str _ => true
  | .int _ => true
  | .bool _ => true
  | .none => true
  | _ => false

mutual
/-- Every mapping key reachable by json.dumps inside the value is a scalar
key.  Opaque objects count as serializable leaves because every default
function of this module replaces them wholesale, without traversing their
attributes. -/
def serializableKeysB : PyVal → Bool
  | .list xs => serializableKeysListB xs
  | .dict kvs => serializableKeysEntriesB kvs
  | _ => true

def serializableKeysListB : List PyVal → Bool
  | [] => true
  | v :: r => serializableKeysB v && serializableKeysListB r

def serializableKeysEntriesB : List (PyVal × PyVal) → Bool
  | [] => true
  | (k, v) :: r => scalarKeyB k && serializableKeysB v && serializableKeysEntriesB r
end

mutual
/-- The string occurs as a mapping key (given as a string key or an object
attribute name) somewhere in the value. -/
def containsKeyPV (k : String) : PyVal → Bool
  | .dict kvs => containsKeyEntries k kvs
  | .list xs => containsKeyList k xs
  | .obj _ _ _ _ attrs => containsKeyAttrs k attrs
  | _ => false

def containsKeyList (k : String) : List PyVal → Bool
  | [] => false
  | v :: r => containsKeyPV k v || containsKeyList k r

def containsKeyEntries (k : String) : List (PyVal × PyVal) → Bool
  | [] => false
  | (kk, v) :: r =>
      (match kk with | .str s => s == k | _ => false) || containsKeyPV k v ||
        containsKeyEntries k r

def containsKeyAttrs (k : String) : List (String × PyVal) → Bool
  | [] => false
  | (a, v) :: r => a == k || containsKeyPV k v || containsKeyAttrs k r
end

mutual
/-- The string occurs verbatim in the document, as a string leaf or as an
object key. -/
def occursStrJ (s : String) : Json → Bool
  | .str t => t == s
  | .arr xs => occursStrJList s xs
  | .obj kvs => occursStrJEntries s kvs
  | _ => false

def occursStrJList (s : String) : List Json → Bool
  | [] => false
  | j :: r => occursStrJ s j || occursStrJList s r

def occursStrJEntries (s : String) : List (String × Json) → Bool
  | [] => false
  | (k, j) :: r => k == s || occursStrJ s j || occursStrJEntries s r
end

mutual
/-- The two values agree everywhere except possibly at the values stored
under keys that log_new_wrapper passes to the exclusion set of to_dict:
same shape, same keys in the same order, same scalars, and arbitrary
disagreement only below an excluded mapping key or attribute name. -/
def redactEqB : PyVal → PyVal → Bool
  | .dict kvs, .dict kvs2 => redactEqEntriesB kvs kvs2
  | .list xs, .list ys => redactEqListB xs ys
  | .obj cn mn oid ia attrs, .obj cn2 mn2 oid2 ia2 attrs2 =>
      cn == cn2 && mn == mn2 && oid == oid2 && ia == ia2 && redactEqAttrsB attrs attrs2
  | .none, .none => true
  | .bool b, .bool b2 => b == b2
  | .int n, .int n2 => n == n2
  | .str s, .str s2 => s == s2
  | _, _ => false

def redactEqListB : List PyVal → List PyVal → Bool
  | [], [] => true
  | v :: r, w :: t => redactEqB v w && redactEqListB r t
  | _, _ => false

def redactEqEntriesB : List (PyVal × PyVal) → List (PyVal × PyVal) → Bool
  | [], [] => true
  | (k, v) :: r, (k2, w) :: t =>
      pvKeyEqB k k2 &&
      (if isExcludedKey OtelLogger.wrapperExcludeKeys k then true else redactEqB v w) &&
      redactEqEntriesB r t
  | _, _ => false

def redactEqAttrsB : List (String × PyVal) → List (String × PyVal) → Bool
  | [], [] => true
  | (a, v) :: r, (a2, w) :: t =>
      a == a2 &&
      (if OtelLogger.wrapperExcludeKeys.contains a then true else redactEqB v w) &&
      redactEqAttrsB r t
  | _, _ => false

/-- Key positions must agree exactly; only scalar keys are considered equal
because only they can be compared without descending. -/
def pvKeyEqB : PyVal → PyVal → Bool
  | .none, .none => true
  | .bool b, .bool b2 => b == b2
  | .int n, .int n2 => n == n2
  | .str s, .str s2 => s == s2
  | _, _ => false
end

/-- Top-level field lookup on a JSON object document. -/
def lookupJ : Json → String → Option Json
  | .obj kvs, k => kvs.lookup k
  | _, _ => Option.none

/-- The coerced key string of a mapping key, with a dummy for keys that
json.dumps rejects. -/
def jsonKeyStrD (v : PyVal) : String :=
  match jsonKeyStr v with
  | .ok s => s
  | .error _ => ""

/-- The value of the first entry whose coerced key equals the given string,
when that value is a string literal. -/
def firstStrVal (k : String) : List (PyVal × PyVal) → Option String
  | [] => Option.none
  | (kk, v) :: r =>
      match k == jsonKeyStrD kk with
      | true =>
          match v with
          | .str s => some s
          | _ => Option.none
      | false => firstStrVal k r

/-- The precondition under which the pre-guard source-name resolution of
log_chat_completion does not raise. -/
def sourceNameResolvable : PyVal → Bool
  | .str _ => true
  | .none => true
  | v => (v.getattr "name").isSome

/-- The explicit start and end instants of the single span of a successful
operation result, when both are present. -/
def spanBounds (x : Except PyErr OpOut) : Option (Int × Int) :=
  match x with
  | .ok out =>
      match out.spans with
      | [sp] =>
          match sp.startNs, sp.endNs with
          | some a, some b => some (a, b)
          | _, _ => Option.none
      | _ => Option.none
  | .error _ => Option.none

/-- The recorded span ends strictly before it starts. -/
def spanEndBeforeStart (x : Except PyErr OpOut) : Bool :=
  match spanBounds x with
  | some (a, b) => decide (b < a)
  | Option.none => false

/-- The six secret-bearing keys named by the specification. -/
def redactedKeys6 : List String :=
  ["api_key", "organization", "base_url", "azure_endpoint",
   "azure_ad_token", "azure_ad_token_provider"]

/-- The first list starts the second. -/
def leadsWith : List Char → List Char → Bool
  | [], _ => true
  | _ :: _, [] => false
  | a :: as, b :: bs => a == b && leadsWith as bs

/-- The first list occurs contiguously inside the second. -/
def appearsIn (needle : List Char) : List Char → Bool
  | [] => needle.isEmpty
  | c :: r => leadsWith needle (c :: r) || appearsIn needle r

/-- Substring occurrence on strings. -/
def strAppearsIn (needle haystack : String) : Bool :=
  appearsIn needle.data haystack.data

/-- Every structured record among the emissions carries the given session id
in its session_id field. -/
def infoRecordsHaveSession (sid : String) (emits : List Emission) : Bool :=
  emits.all fun e =>
    match e with
    | .info r =>
        match lookupJ r "session_id" with
        | some (Json.str s) => s == sid
        | _ => false
    | _ => true

/-- No structured record among the emissions has a session_id field. -/
def infoRecordsNoSession (emits : List Emission) : Bool :=
  emits.all fun e =>
    match e with
    | .info r => (lookupJ r "session_id").isNone
    | _ => true

/-- The emissions of an operation that completed normally; a raised call
emits nothing through its own return path. -/
def exceptEmits : Except PyErr OpOut → List Emission
  | .ok out => out.emits
  | .error _ => []

/-- A started logger instance used by the concrete evaluations below. -/
def sampleState : LoggerState :=
  { config := .dict [], session_id := formatUuid4 9, exporterKind := .otlp }

/-- A chat-completion response object carrying the usage counts of the
end-to-end scenario of the specification. -/
def sampleResponse : PyVal :=
  .obj "ChatCompletion" "openai" 11 false
    [("usage", .obj "CompletionUsage" "openai" 12 false
      [("prompt_tokens", .int 10), ("completion_tokens", .int 5),
       ("total_tokens", .int 15)])]

/-- The record document log_chat_completion emits on its success path, as a
function of the already-resolved pieces. -/
def lccRecordJson (invocation_id : String) (client_id wrapper_id : Int) (reqJ : Json)
    (response : PyVal) (is_cached cost : Int) (start_time now : String) (tid : Nat)
    (sname : String) (p c t : Int) : Json :=
  .obj
    [("invocation_id", .str invocation_id),
     ("client_id", .num client_id),
     ("wrapper_id", .num wrapper_id),
     ("request", reqJ),
     ("response", .str (pyStr response)),
     ("is_cached", .num is_cached),
     ("cost", .num cost),
     ("start_time", .str start_time),
     ("end_time", .str now),
     ("thread_id", .num tid),
     ("source_name", .str sname),
     ("prompt_tokens", .num p),
     ("completion_tokens", .num c),
     ("total_tokens", .num t)]

/-- The llm_span log_chat_completion records on its success path. -/
def lccSpanOf (recJ : Json) (tz : Int) (sdt edt : DateTime) (cost : Int)
    (sname : String) (p c t : Int) : Span :=
  { name := "llm_span",
    startNs := some (toNs tz sdt),
    endNs := some (toNs tz edt),
    attrs := [("data", .str (renderJson recJ)),
              ("cost", .num cost),
              ("source_name", .str sname),
              ("prompt_tokens", .num p),
              ("completion_tokens", .num c),
              ("total_tokens", .num t)] }

/-- A wrapper init args dict in which the api_key secret also sits under an
innocuous second key. -/
def dupSecretArgs : PyVal :=
  .dict [(.str "api_key", .str "sk-secret"), (.str "note", .str "sk-secret")]

/-! ## Totality of json.dumps under scalar mapping keys -/

theorem scalarKey_keyStr {k : PyVal} (h : scalarKeyB k = true) :
    ∃ s, jsonKeyStr k = .ok s := by
  cases k with
  | str s => exact ⟨s, rfl⟩
  | int n => exact ⟨toString n, rfl⟩
  | bool b => cases b with
    | true => exact ⟨"true", rfl⟩
    | false => exact ⟨"false", rfl⟩
  | none => exact ⟨"null", rfl⟩
  | list xs => simp [scalarKeyB] at h
  | dict kvs => simp [scalarKeyB] at h
  | obj cn mn oid ia attrs => simp [scalarKeyB] at h

mutual
theorem jsonDumps_ok (dflt : PyVal → Except PyErr String)
    (hd : ∀ v, ∃ s, dflt v = .ok s) :
    ∀ v, serializableKeysB v = true → ∃ j, jsonDumps dflt v = .ok j
  | .none, _ => ⟨.null, rfl⟩
  | .bool b, _ => ⟨.bool b, rfl⟩
  | .int n, _ => ⟨.num n, rfl⟩
  | .str s, _ => ⟨.str s, rfl⟩
  | .list xs, h => by
      obtain ⟨js, hjs⟩ :=
        jsonDumpsList_ok dflt hd xs (by simpa [serializableKeysB] using h)
      exact ⟨.arr js, by simp [jsonDumps, hjs]⟩
  | .dict kvs, h => by
      obtain ⟨es, hes⟩ :=
        jsonDumpsEntries_ok dflt hd kvs (by simpa [serializableKeysB] using h)
      exact ⟨.obj es, by simp [jsonDumps, hes]⟩
  | .obj cn mn oid ia attrs, _ => by
      obtain ⟨s, hs⟩ := hd (.obj cn mn oid ia attrs)
      exact ⟨.str s, by simp [jsonDumps, hs]⟩

theorem jsonDumpsList_ok (dflt : PyVal → Except PyErr String)
    (hd : ∀ v, ∃ s, dflt v = .ok s) :
    ∀ xs, serializableKeysListB xs = true → ∃ js, jsonDumpsList dflt xs = .ok js
  | [], _ => ⟨[], rfl⟩
  | v :: r, h => by
      have h2 : serializableKeysB v = true ∧ serializableKeysListB r = true := by
        simpa [serializableKeysListB, Bool.and_eq_true] using h
      obtain ⟨j, hj⟩ := jsonDumps_ok dflt hd v h2.1
      obtain ⟨js, hjs⟩ := jsonDumpsList_ok dflt hd r h2.2
      exact ⟨j :: js, by simp [jsonDumpsList, hj, hjs]⟩

theorem jsonDumpsEntries_ok (dflt : PyVal → Except PyErr String)
    (hd : ∀ v, ∃ s, dflt v = .ok s) :
    ∀ kvs, serializableKeysEntriesB kvs = true →
      ∃ es, jsonDumpsEntries dflt kvs = .ok es
  | [], _ => ⟨[], rfl⟩
  | (k, v) :: r, h => by
      have h3 : scalarKeyB k = true ∧ serializableKeysB v = true ∧
          serializableKeysEntriesB r = true := by
        simpa [serializableKeysEntriesB, Bool.and_eq_true, and_assoc] using h
      obtain ⟨ks, hks⟩ := scalarKey_keyStr h3.1
      obtain ⟨jv, hjv⟩ := jsonDumps_ok dflt hd v h3.2.1
      obtain ⟨es, hes⟩ := jsonDumpsEntries_ok dflt hd r h3.2.2
      exact ⟨(ks, jv) :: es, by simp [jsonDumpsEntries, hks, hjv, hes]⟩
end

/-- The default function of safe_serialize never fails. -/
theorem pySafeDefault_ok (v : PyVal) : ∃ s, pySafeDefault v = .ok s := by
  unfold pySafeDefault
  cases h : v.getattr "to_json" with
  | none => exact ⟨_, rfl⟩
  | some j => exact ⟨_, rfl⟩

/-- The placeholder default of log_event never fails. -/
theorem pyEventDefault_ok (v : PyVal) : ∃ s, pyEventDefault v = .ok s := ⟨_, rfl⟩

/-! ## Redaction of the wrapper init args -/

mutual
/-- No excluded key survives anywhere in the projection of to_dict. -/
theorem to_dict_no_key (k : String) (hk : k ∈ OtelLogger.wrapperExcludeKeys) :
    ∀ v, containsKeyPV k (to_dict v OtelLogger.wrapperExcludeKeys) = false
  | .none => rfl
  | .bool _ => rfl
  | .int _ => rfl
  | .str _ => rfl
  | .list xs => by
      simpa [to_dict, containsKeyPV] using to_dictList_no_key k hk xs
  | .dict kvs => by
      simpa [to_dict, containsKeyPV] using to_dictEntries_no_key k hk kvs
  | .obj cn mn oid ia attrs => by
      simpa [to_dict, containsKeyPV] using to_dictAttrs_no_key k hk attrs

theorem to_dictList_no_key (k : String) (hk : k ∈ OtelLogger.wrapperExcludeKeys) :
    ∀ xs, containsKeyList k (to_dictList xs OtelLogger.wrapperExcludeKeys) = false
  | [] => rfl
  | v :: r => by
      simp [to_dictList, containsKeyList, to_dict_no_key k hk v,
            to_dictList_no_key k hk r]

theorem to_dictEntries_no_key (k : String) (hk : k ∈ OtelLogger.wrapperExcludeKeys) :
    ∀ kvs, containsKeyEntries k (to_dictEntries kvs OtelLogger.wrapperExcludeKeys) = false
  | [] => rfl
  | (kk, v) :: r => by
      cases hex : isExcludedKey OtelLogger.wrapperExcludeKeys kk with
      | true => simpa [to_dictEntries, hex] using to_dictEntries_no_key k hk r
      | false =>
          cases kk
          case str s =>
            have hs : s ∉ OtelLogger.wrapperExcludeKeys := by
              simpa [isExcludedKey] using hex
            have hsk : (s == k) = false := by
              simp only [beq_eq_false_iff_ne, ne_eq]
              intro hsk
              exact hs (hsk ▸ hk)
            simp [to_dictEntries, isExcludedKey, hs, containsKeyEntries, hsk,
                  to_dict_no_key k hk v, to_dictEntries_no_key k hk r]
          all_goals
            simp [to_dictEntries, hex, containsKeyEntries,
                  to_dict_no_key k hk v, to_dictEntries_no_key k hk r]

theorem to_dictAttrs_no_key (k : String) (hk : k ∈ OtelLogger.wrapperExcludeKeys) :
    ∀ attrs, containsKeyEntries k (to_dictAttrs attrs OtelLogger.wrapperExcludeKeys) = false
  | [] => rfl
  | (a, v) :: r => by
      cases hex : OtelLogger.wrapperExcludeKeys.contains a with
      | true =>
          have hmem : a ∈ OtelLogger.wrapperExcludeKeys := by simpa using hex
          simpa [to_dictAttrs, hmem] using to_dictAttrs_no_key k hk r
      | false =>
          have hmem : a ∉ OtelLogger.wrapperExcludeKeys := by simpa using hex
          have hak : (a == k) = false := by
            simp only [beq_eq_false_iff_ne, ne_eq]
            intro hak
            exact hmem (hak ▸ hk)
          simp [to_dictAttrs, hmem, containsKeyEntries, hak,
                to_dict_no_key k hk v, to_dictAttrs_no_key k hk r]
end

theorem pvKeyEqB_eq : ∀ {k k2 : PyVal}, pvKeyEqB k k2 = true → k = k2 := by
  intro k k2 h
  cases k <;> cases k2 <;> simp_all [pvKeyEqB]

mutual
/-- Noninterference of the redacted values: two inputs that agree outside
the excluded keys project to the identical mapping. -/
theorem to_dict_redactEq :
    ∀ v w, redactEqB v w = true →
      to_dict v OtelLogger.wrapperExcludeKeys = to_dict w OtelLogger.wrapperExcludeKeys
  | .none, w, h => by cases w <;> simp_all [redactEqB]
  | .bool b, w, h => by cases w <;> simp_all [redactEqB]
  | .int n, w, h => by cases w <;> simp_all [redactEqB]
  | .str s, w, h => by cases w <;> simp_all [redactEqB]
  | .list xs, w, h => by
      cases w <;> simp only [redactEqB] at h
      case list ys =>
        simp [to_dict, to_dictList_redactEq xs ys h]
      all_goals simp_all
  | .dict kvs, w, h => by
      cases w <;> simp only [redactEqB] at h
      case dict kvs2 =>
        simp [to_dict, to_dictEntries_redactEq kvs kvs2 h]
      all_goals simp_all
  | .obj cn mn oid ia attrs, w, h => by
      cases w <;> simp only [redactEqB] at h
      case obj cn2 mn2 oid2 ia2 attrs2 =>
        simp only [Bool.and_eq_true, beq_iff_eq] at h
        obtain ⟨⟨⟨⟨h1, h2⟩, h3⟩, h4⟩, h5⟩ := h
        subst h1; subst h2; subst h3; subst h4
        simp [to_dict, to_dictAttrs_redactEq attrs attrs2 h5]
      all_goals simp_all

theorem to_dictList_redactEq :
    ∀ xs ys, redactEqListB xs ys = true →
      to_dictList xs OtelLogger.wrapperExcludeKeys = to_dictList ys OtelLogger.wrapperExcludeKeys
  | [], [], _ => rfl
  | [], _ :: _, h => by simp [redactEqListB] at h
  | _ :: _, [], h => by simp [redactEqListB] at h
  | v :: r, w :: t, h => by
      have h2 : redactEqB v w = true ∧ redactEqListB r t = true := by
        simpa [redactEqListB, Bool.and_eq_true] using h
      simp [to_dictList, to_dict_redactEq v w h2.1, to_dictList_redactEq r t h2.2]

theorem to_dictEntries_redactEq :
    ∀ kvs kvs2, redactEqEntriesB kvs kvs2 = true →
      to_dictEntries kvs OtelLogger.wrapperExcludeKeys
        = to_dictEntries kvs2 OtelLogger.wrapperExcludeKeys
  | [], [], _ => rfl
  | [], _ :: _, h => by simp [redactEqEntriesB] at h
  | _ :: _, [], h => by simp [redactEqEntriesB] at h
  | (k, v) :: r, (k2, w) :: t, h => by
      have h3 : pvKeyEqB k k2 = true ∧
          (if isExcludedKey OtelLogger.wrapperExcludeKeys k then true
           else redactEqB v w) = true ∧
          redactEqEntriesB r t = true := by
        simpa [redactEqEntriesB, Bool.and_eq_true, and_assoc] using h
      have hkeq : k = k2 := pvKeyEqB_eq h3.1
      subst hkeq
      by_cases hex : isExcludedKey OtelLogger.wrapperExcludeKeys k = true
      · simp [to_dictEntries, hex, to_dictEntries_redactEq r t h3.2.2]
      · have hvw : redactEqB v w = true := by
          have := h3.2.1
          simpa [hex] using this
        simp [to_dictEntries, hex, to_dict_redactEq v w hvw,
              to_dictEntries_redactEq r t h3.2.2]

theorem to_dictAttrs_redactEq :
    ∀ attrs attrs2, redactEqAttrsB attrs attrs2 = true →
      to_dictAttrs attrs OtelLogger.wrapperExcludeKeys
        = to_dictAttrs attrs2 OtelLogger.wrapperExcludeKeys
  | [], [], _ => rfl
  | [], _ :: _, h => by simp [redactEqAttrsB] at h
  | _ :: _, [], h => by simp [redactEqAttrsB] at h
  | (a, v) :: r, (a2, w) :: t, h => by
      have h3 : (a == a2) = true ∧
          (if OtelLogger.wrapperExcludeKeys.contains a then true
           else redactEqB v w) = true ∧
          redactEqAttrsB r t = true := by
        simpa [redactEqAttrsB, Bool.and_eq_true, and_assoc] using h
      have haeq : a = a2 := by simpa using h3.1
      subst haeq
      cases hex : OtelLogger.wrapperExcludeKeys.contains a with
      | true =>
          have hmem : a ∈ OtelLogger.wrapperExcludeKeys := by simpa using hex
          simp [to_dictAttrs, hmem, to_dictAttrs_redactEq r t h3.2.2]
      | false =>
          have hmem : a ∉ OtelLogger.wrapperExcludeKeys := by simpa using hex
          have hvw : redactEqB v w = true := by
            have h5 := h3.2.1
            rw [hex] at h5
            simpa using h5
          simp [to_dictAttrs, hmem, to_dict_redactEq v w hvw,
                to_dictAttrs_redactEq r t h3.2.2]
end

/-! ## Calendar order and the span instants -/

set_option maxHeartbeats 2000000 in
/-- The closed form advances by exactly the length of the year crossed. -/
theorem daysBeforeYear_step (y : Nat) (hy : 1 ≤ y) :
    daysBeforeYear (y + 1) = daysBeforeYear y + daysInYearN y := by
  cases hL : isLeap y with
  | true =>
      have h2 : (y % 4 = 0 ∧ y % 100 ≠ 0) ∨ y % 400 = 0 := by
        simpa [isLeap, Bool.or_eq_true, Bool.and_eq_true, beq_iff_eq,
               bne_iff_ne] using hL
      rw [show daysInYearN y = 366 from by simp [daysInYearN, hL]]
      unfold daysBeforeYear
      omega
  | false =>
      have h2 : ¬((y % 4 = 0 ∧ y % 100 ≠ 0) ∨ y % 400 = 0) := by
        simpa [isLeap, Bool.or_eq_true, Bool.and_eq_true, beq_iff_eq,
               bne_iff_ne] using hL
      rw [show daysInYearN y = 365 from by simp [daysInYearN, hL]]
      unfold daysBeforeYear
      omega

theorem daysBeforeYear_mono {a b : Nat} (h : a ≤ b) :
    daysBeforeYear a ≤ daysBeforeYear b := by
  induction b, h using Nat.le_induction with
  | base => exact Nat.le_refl _
  | succ b hb ih =>
      rcases Nat.eq_zero_or_pos b with rfl | hbpos
      · have ha : a = 0 := by omega
        subst ha
        decide
      · calc daysBeforeYear a ≤ daysBeforeYear b := ih
          _ ≤ daysBeforeYear (b + 1) := by
              rw [daysBeforeYear_step b hbpos]
              omega

theorem daysInMonth_le (L : Bool) (m : Nat) : daysInMonth L m ≤ 31 := by
  unfold daysInMonth
  split <;> (try split) <;> omega

theorem inYear_lt (L : Bool) (m d : Nat) (hm1 : 1 ≤ m) (hm2 : m ≤ 12)
    (hd1 : 1 ≤ d) (hd2 : d ≤ daysInMonth L m) :
    daysBeforeMonth L m + (d - 1) < (if L then 366 else 365) := by
  interval_cases m <;> cases L <;>
    simp [daysBeforeMonth, daysInMonth] at * <;> omega

theorem dbm_step (L : Bool) (m m2 : Nat) (hm1 : 1 ≤ m) (hlt : m < m2) (hm2 : m2 ≤ 12) :
    daysBeforeMonth L m + daysInMonth L m ≤ daysBeforeMonth L m2 := by
  have hm11 : m ≤ 11 := by omega
  interval_cases m <;> interval_cases m2 <;> cases L <;> decide

theorem dateOrdinal_lt_year (d1 d2 : DateTime) (h1 : validDT d1) (h2 : validDT d2)
    (hy : d1.year < d2.year) : dateOrdinal d1 < dateOrdinal d2 := by
  obtain ⟨h1y, _, h1m, h1m2, h1d, h1d2, _⟩ := h1
  have hin : daysBeforeMonth (isLeap d1.year) d1.month + (d1.day - 1)
      < daysInYearN d1.year := by
    have := inYear_lt (isLeap d1.year) d1.month d1.day h1m h1m2 h1d h1d2
    simpa [daysInYearN] using this
  have hstep : daysBeforeYear d1.year + daysInYearN d1.year
      = daysBeforeYear (d1.year + 1) :=
    (daysBeforeYear_step d1.year h1y).symm
  have hmono : daysBeforeYear (d1.year + 1) ≤ daysBeforeYear d2.year :=
    daysBeforeYear_mono hy
  unfold dateOrdinal
  omega

theorem dateOrdinal_lt_month (d1 d2 : DateTime) (h1 : validDT d1) (h2 : validDT d2)
    (hy : d1.year = d2.year) (hm : d1.month < d2.month) :
    dateOrdinal d1 < dateOrdinal d2 := by
  obtain ⟨_, _, h1m, _, h1d, h1d2, _⟩ := h1
  obtain ⟨_, _, _, h2m2, h2d, _⟩ := h2
  have hstep : daysBeforeMonth (isLeap d1.year) d1.month
        + daysInMonth (isLeap d1.year) d1.month
      ≤ daysBeforeMonth (isLeap d1.year) d2.month :=
    dbm_step (isLeap d1.year) d1.month d2.month h1m hm h2m2
  unfold dateOrdinal
  rw [← hy]
  omega

theorem toNs_mono (tz : Int) (d1 d2 : DateTime) (h1 : validDT d1) (h2 : validDT d2)
    (hk : dtKey d1 ≤ dtKey d2) : toNs tz d1 ≤ toNs tz d2 := by
  have hb1 := h1
  have hb2 := h2
  obtain ⟨a1, a2, a3, a4, a5, a6, a7, a8, a9, a10⟩ := hb1
  obtain ⟨b1, b2, b3, b4, b5, b6, b7, b8, b9, b10⟩ := hb2
  have hdm1 : d1.day ≤ 31 := le_trans a6 (daysInMonth_le _ _)
  have hdm2 : d2.day ≤ 31 := le_trans b6 (daysInMonth_le _ _)
  rcases Nat.lt_trichotomy d1.year d2.year with hy | hy | hy
  · have hord := dateOrdinal_lt_year d1 d2 h1 h2 hy
    unfold toNs epochSeconds
    omega
  · rcases Nat.lt_trichotomy d1.month d2.month with hm | hm | hm
    · have hord := dateOrdinal_lt_month d1 d2 h1 h2 hy hm
      unfold toNs epochSeconds
      omega
    · rcases Nat.lt_trichotomy d1.day d2.day with hd | hd | hd
      · have hord : dateOrdinal d1 < dateOrdinal d2 := by
          unfold dateOrdinal
          rw [← hy, ← hm]
          omega
        unfold toNs epochSeconds
        omega
      · have hord : dateOrdinal d1 = dateOrdinal d2 := by
          unfold dateOrdinal
          rw [hy, hm, hd]
        unfold dtKey at hk
        rw [hy, hm, hd] at hk
        unfold toNs epochSeconds
        omega
      · exfalso
        unfold dtKey at hk
        rw [hy, hm] at hk
        omega
    · exfalso
      unfold dtKey at hk
      rw [hy] at hk
      omega
  · exfalso
    unfold dtKey at hk
    omega

/-- A successful strptime yields fields inside the accepted ranges. -/
theorem strptime_valid {s : String} {dt : DateTime} (h : strptime s = .ok dt) :
    validDT dt := by
  unfold strptime at h
  cases hp : parseDT s.data with
  | none => rw [hp] at h; exact absurd h (by simp)
  | some d =>
      rw [hp] at h
      dsimp only at h
      by_cases hv : validDT d
      · rw [if_pos hv] at h
        simp only [Except.ok.injEq] at h
        exact h ▸ hv
      · rw [if_neg hv] at h
        exact absurd h (by simp)

/-! ## Validity of the generated session identifier -/

theorem hexChar_hex (m : Nat) : isHexDigitB (hexChar m) = true := by
  unfold hexChar
  split <;> rfl

theorem toHexList_length : ∀ (n l : Nat), (toHexList n l).length = l
  | _, 0 => rfl
  | n, l + 1 => by simp [toHexList, toHexList_length (n / 16) l]

theorem toHexList_hex : ∀ (n l : Nat) (c : Char), c ∈ toHexList n l → isHexDigitB c = true
  | n, 0, c, h => by simp [toHexList] at h
  | n, l + 1, c, h => by
      simp only [toHexList, List.mem_append, List.mem_singleton] at h
      rcases h with h | h
      · exact toHexList_hex (n / 16) l c h
      · exact h ▸ hexChar_hex (n % 16)

theorem toHexList_four (n : Nat) :
    toHexList n 4 = [hexChar (n / 4096 % 16), hexChar (n / 256 % 16),
                     hexChar (n / 16 % 16), hexChar (n % 16)] := by
  simp [toHexList, Nat.div_div_eq_div_mul]

theorem formatUuid4_valid (r : Nat) : isValidUuidChars (formatUuid4 r).data := by
  refine ⟨toHexList (r / 2 ^ 96 % 2 ^ 32) 8,
          toHexList (r / 2 ^ 80 % 2 ^ 16) 4,
          toHexList (16384 + r / 2 ^ 64 % 4096) 4,
          toHexList (32768 + r / 2 ^ 48 % 16384) 4,
          toHexList (r % 2 ^ 48) 12,
          rfl, toHexList_length _ _, toHexList_length _ _, toHexList_length _ _,
          toHexList_length _ _, toHexList_length _ _, ?_, ?_, ?_⟩
  · intro c hc
    simp only [List.mem_append] at hc
    rcases hc with ((((h | h) | h) | h) | h) <;> exact toHexList_hex _ _ _ h
  · rw [toHexList_four]
    have hx : r / 2 ^ 64 % 4096 < 4096 := Nat.mod_lt _ (by norm_num)
    have h4 : (16384 + r / 2 ^ 64 % 4096) / 4096 % 16 = 4 := by omega
    show some (hexChar ((16384 + r / 2 ^ 64 % 4096) / 4096 % 16)) = some '4'
    rw [h4]
    rfl
  · rw [toHexList_four]
    have hy : r / 2 ^ 48 % 16384 < 16384 := Nat.mod_lt _ (by norm_num)
    have h8 : (32768 + r / 2 ^ 48 % 16384) / 4096 % 16 = 8 ∨
        (32768 + r / 2 ^ 48 % 16384) / 4096 % 16 = 9 ∨
        (32768 + r / 2 ^ 48 % 16384) / 4096 % 16 = 10 ∨
        (32768 + r / 2 ^ 48 % 16384) / 4096 % 16 = 11 := by omega
    refine ⟨hexChar ((32768 + r / 2 ^ 48 % 16384) / 4096 % 16), by simp, ?_⟩
    rcases h8 with h | h | h | h <;> rw [h] <;> simp [hexChar]

/-! ## Claim C2 -/

/-- Claim C2, counterexample: safe_serialize raises TypeError on a dict
whose key is a (hashable) opaque object, because json.dumps never consults
the default function for mapping keys; so it is not a total function. -/
theorem C2_counterexample :
    safe_serialize (.dict [(.obj "Key" "mymod" 1 false [], .int 1)])
      = .error (.typeError "keys must be str, int, float, bool or None, not Key") := rfl

/-- Claim C2, amended: for every value whose mapping keys are all scalars
(the only keys json.dumps accepts), safe_serialize returns without raising a
string that is the rendering of a JSON document; a non-serializable leaf
with a to_json attribute becomes the stringified to_json value encoded as a
JSON string, and one without becomes the placeholder naming its type. -/
theorem C2_safe_serialize_amended :
    (∀ v, serializableKeysB v = true → ∃ j, safe_serialize v = .ok (renderJson j)) ∧
    (∀ cn mn oid ia (attrs : List (String × PyVal)),
      attrs.lookup "to_json" = Option.none →
      safe_serialize (.obj cn mn oid ia attrs)
        = .ok (renderJson (.str ("<<non-serializable: " ++ cn ++ ">>")))) ∧
    (∀ cn mn oid ia (attrs : List (String × PyVal)) (tj : PyVal),
      attrs.lookup "to_json" = some tj →
      safe_serialize (.obj cn mn oid ia attrs) = .ok (renderJson (.str (pyStr tj)))) := by
  refine ⟨?_, ?_, ?_⟩
  · intro v h
    obtain ⟨j, hj⟩ := jsonDumps_ok pySafeDefault pySafeDefault_ok v h
    exact ⟨j, by simp [safe_serialize, hj]⟩
  · intro cn mn oid ia attrs h
    simp [safe_serialize, jsonDumps, pySafeDefault, PyVal.getattr, pyClassName, h]
  · intro cn mn oid ia attrs tj h
    simp [safe_serialize, jsonDumps, pySafeDefault, PyVal.getattr, pyClassName, h]

/-- Claim C2, witness evaluation of the amended theorem. -/
theorem C2_witness :
    (∃ j, safe_serialize (.dict [(.str "a", .list [.int 1, .none])])
        = .ok (renderJson j)) ∧
    safe_serialize (.obj "Foo" "mymod" 7 false [])
      = .ok (renderJson (.str ("<<non-serializable: " ++ "Foo" ++ ">>"))) ∧
    safe_serialize (.obj "Foo" "mymod" 7 false [("to_json", .str "42")])
      = .ok (renderJson (.str (pyStr (.str "42")))) :=
  ⟨C2_safe_serialize_amended.1 _ rfl,
   C2_safe_serialize_amended.2.1 "Foo" "mymod" 7 false [] rfl,
   C2_safe_serialize_amended.2.2 "Foo" "mymod" 7 false [("to_json", .str "42")]
     (.str "42") rfl⟩

/-! ## Claim C3 -/

/-- Claim C3, counterexample: with the exporter-selection setting holding
the unrecognized value console, construction does not fall back to the
default exporter; it takes the alternate branch and raises NameError, so
construction fails. -/
theorem C3_counterexample :
    OtelLogger.init (.dict [])
        (fun k => if k = "EXPORTER_TYPE" then some "console" else Option.none) 0
      = .error (.nameError "name AzureMonitorLogExporter is not defined") := rfl

/-- Claim C3, amended: construction succeeds with the OTLP exporter pair
exactly when the setting is absent or equal to otlp; every other value,
the recognized alternate included, selects the Azure Monitor branch whose
exporter classes are never imported, so construction raises NameError
instead of falling back. -/
theorem C3_init_amended (config : PyVal) (env : String → Option String) (r : Nat) :
    ((env "EXPORTER_TYPE").getD "otlp" = "otlp" →
      OtelLogger.init config env r
        = .ok { config := config, session_id := formatUuid4 r, exporterKind := .otlp }) ∧
    ((env "EXPORTER_TYPE").getD "otlp" ≠ "otlp" →
      OtelLogger.init config env r
        = .error (.nameError "name AzureMonitorLogExporter is not defined")) := by
  constructor
  · intro h
    simp [OtelLogger.init, h]
  · intro h
    simp [OtelLogger.init, h]

/-- Claim C3, witness evaluation of the amended theorem. -/
theorem C3_witness :
    OtelLogger.init (.dict []) (fun _ => Option.none) 0
      = .ok { config := .dict [], session_id := formatUuid4 0, exporterKind := .otlp } ∧
    OtelLogger.init (.dict [])
        (fun k => if k = "EXPORTER_TYPE" then some "azure" else Option.none) 0
      = .error (.nameError "name AzureMonitorLogExporter is not defined") :=
  ⟨(C3_init_amended (.dict []) (fun _ => Option.none) 0).1 rfl,
   (C3_init_amended (.dict [])
       (fun k => if k = "EXPORTER_TYPE" then some "azure" else Option.none) 0).2
     (by decide)⟩

/-! ## Claim C8 -/

/-- Claim C8: start always returns the instance session id, the id is a
syntactically valid version-4 UUID string, and when the announcement log
raises, the failure is reported on the module error channel while the id is
still returned. -/
theorem C8_start_returns_valid_id (config : PyVal) (env : String → Option String)
    (r : Nat) (err : Option PyErr) (st : LoggerState)
    (hinit : OtelLogger.init config env r = .ok st) :
    (OtelLogger.start st err).ret = st.session_id ∧
    isValidUuidChars st.session_id.data ∧
    (∀ e, err = some e →
      (OtelLogger.start st err).emits
        = [.modErr ("[otel_logger] Failed to create logging file: " ++ pyErrStr e)]) := by
  unfold OtelLogger.init at hinit
  by_cases hc : (env "EXPORTER_TYPE").getD "otlp" = "otlp"
  · rw [if_pos hc] at hinit
    simp only [Except.ok.injEq] at hinit
    subst hinit
    refine ⟨?_, ?_, ?_⟩
    · cases err <;> rfl
    · exact formatUuid4_valid r
    · intro e he
      subst he
      rfl
  · rw [if_neg hc] at hinit
    exact absurd hinit (by simp)

/-- Claim C8, witness evaluation at a failing announcement. -/
theorem C8_witness :
    (OtelLogger.start sampleState (some (.typeError "boom"))).ret
        = sampleState.session_id ∧
    isValidUuidChars sampleState.session_id.data ∧
    (OtelLogger.start sampleState (some (.typeError "boom"))).emits
      = [.modErr ("[otel_logger] Failed to create logging file: "
          ++ pyErrStr (.typeError "boom"))] := by
  have h := C8_start_returns_valid_id (.dict []) (fun _ => Option.none) 9
    (some (.typeError "boom")) sampleState rfl
  exact ⟨h.1, h.2.1, h.2.2 (.typeError "boom") rfl⟩

/-! ## Claim C9 -/

/-- Claim C9: the session identifier is generated exactly once, at
construction, from the uuid4 randomness; start never regenerates it, so
repeated calls return the identical identifier. -/
theorem C9_session_id_stable (config : PyVal) (env : String → Option String) (r : Nat)
    (st : LoggerState) (hinit : OtelLogger.init config env r = .ok st)
    (e1 e2 : Option PyErr) :
    (OtelLogger.start st e1).ret = (OtelLogger.start st e2).ret ∧
    (OtelLogger.start st e1).ret = st.session_id ∧
    st.session_id = formatUuid4 r := by
  unfold OtelLogger.init at hinit
  by_cases hc : (env "EXPORTER_TYPE").getD "otlp" = "otlp"
  · rw [if_pos hc] at hinit
    simp only [Except.ok.injEq] at hinit
    subst hinit
    refine ⟨?_, ?_, rfl⟩
    · cases e1 <;> cases e2 <;> rfl
    · cases e1 <;> rfl
  · rw [if_neg hc] at hinit
    exact absurd hinit (by simp)

/-- Claim C9, witness evaluation with one failing and one successful
announcement. -/
theorem C9_witness :
    (OtelLogger.start sampleState (some (.valueError "x"))).ret
        = (OtelLogger.start sampleState Option.none).ret ∧
    (OtelLogger.start sampleState (some (.valueError "x"))).ret
        = sampleState.session_id ∧
    sampleState.session_id = formatUuid4 9 :=
  C9_session_id_stable (.dict []) (fun _ => Option.none) 9 sampleState rfl
    (some (.valueError "x")) Option.none

/-! ## Claim C5 -/

/-- Claim C5, counterexample: when the value bound to api_key also sits
under the non-redacted key note, that value does appear verbatim in the
JSON body of the record emitted by log_new_wrapper, so the claim as stated
fails on this input. -/
theorem C5_counterexample :
    (match (OtelLogger.log_new_wrapper sampleState "2024-01-01 00:00:00.000000" 7
        (.obj "OpenAIWrapper" "autogen.oai.client" 3 false []) dupSecretArgs).emits with
     | [Emission.info rec] => strAppearsIn "sk-secret" (renderJson rec)
     | _ => false) = true := rfl

/-- Claim C5, amended: the record emitted by log_new_wrapper never depends
on the values stored under the excluded keys (any two init_args agreeing
outside those keys produce the identical operation output), and no excluded
key survives anywhere in the projected mapping from which the json_state
field is rendered; hence a redacted value can only reappear when the same
value also occurs under a non-redacted key, as in the counterexample. -/
theorem C5_wrapper_redaction_amended :
    (∀ st now tid wrapper a b, redactEqB a b = true →
      OtelLogger.log_new_wrapper st now tid wrapper a
        = OtelLogger.log_new_wrapper st now tid wrapper b) ∧
    (∀ init_args k, k ∈ redactedKeys6 →
      containsKeyPV k (to_dict init_args OtelLogger.wrapperExcludeKeys) = false) := by
  constructor
  · intro st now tid wrapper a b h
    unfold OtelLogger.log_new_wrapper OtelLogger.lnwBody
    rw [to_dict_redactEq a b h]
  · intro init_args k hk
    have hk8 : k ∈ OtelLogger.wrapperExcludeKeys := by
      fin_cases hk <;> decide
    exact to_dict_no_key k hk8 init_args

/-- Claim C5, witness evaluation of the amended theorem: changing the
api_key value leaves the emitted record unchanged, and the api_key key is
absent from the projected mapping. -/
theorem C5_witness :
    OtelLogger.log_new_wrapper sampleState "2024-01-01 00:00:00.000000" 7
        (.obj "OpenAIWrapper" "autogen.oai.client" 3 false [])
        (.dict [(.str "api_key", .str "sk-AAAA"), (.str "model", .str "gpt")])
      = OtelLogger.log_new_wrapper sampleState "2024-01-01 00:00:00.000000" 7
        (.obj "OpenAIWrapper" "autogen.oai.client" 3 false [])
        (.dict [(.str "api_key", .str "sk-BBBB"), (.str "model", .str "gpt")]) ∧
    containsKeyPV "api_key"
        (to_dict (.dict [(.str "api_key", .str "sk-AAAA"), (.str "model", .str "gpt")])
          OtelLogger.wrapperExcludeKeys) = false :=
  ⟨C5_wrapper_redaction_amended.1 sampleState "2024-01-01 00:00:00.000000" 7
     (.obj "OpenAIWrapper" "autogen.oai.client" 3 false [])
     (.dict [(.str "api_key", .str "sk-AAAA"), (.str "model", .str "gpt")])
     (.dict [(.str "api_key", .str "sk-BBBB"), (.str "model", .str "gpt")])
     (by simp [redactEqB, redactEqEntriesB, pvKeyEqB, isExcludedKey,
               OtelLogger.wrapperExcludeKeys]),
   C5_wrapper_redaction_amended.2
     (.dict [(.str "api_key", .str "sk-AAAA"), (.str "model", .str "gpt")])
     "api_key" (by decide)⟩

/-! ## Claim C1 -/

/-- A resolvable source makes the pre-guard name lookup of
log_chat_completion succeed. -/
theorem resolveSourceName_ok {source : PyVal} (h : sourceNameResolvable source = true) :
    ∃ sn, OtelLogger.resolveSourceName source = .ok sn := by
  cases source with
  | str s => exact ⟨.str s, rfl⟩
  | none => exact ⟨.str "Unknown", rfl⟩
  | obj cn mn oid ia attrs =>
      cases hl : (PyVal.obj cn mn oid ia attrs).getattr "name" with
      | none => simp [sourceNameResolvable, hl] at h
      | some nv => exact ⟨nv, by simp [OtelLogger.resolveSourceName, hl]⟩
  | bool b => simp [sourceNameResolvable, PyVal.getattr] at h
  | int n => simp [sourceNameResolvable, PyVal.getattr] at h
  | list xs => simp [sourceNameResolvable, PyVal.getattr] at h
  | dict kvs => simp [sourceNameResolvable, PyVal.getattr] at h

/-- Claim C1, counterexample: log_chat_completion resolves source.name
before entering its try block, so calling it with a non-string, non-None
source lacking a name attribute raises AttributeError to the caller instead
of returning normally with a diagnostic. -/
theorem C1_counterexample :
    OtelLogger.log_chat_completion sampleState "2024-01-01 00:00:01.000000" 0 7
        "11111111-2222-3333-4444-555555555555" 1 2
        (.obj "CustomAgent" "mymod" 5 true []) (.dict []) (.dict []) 0 2
        "2024-01-01 00:00:00.000000"
      = .error (.attributeError "CustomAgent object has no attribute name") := rfl

/-- Claim C1, amended: log_chat_completion returns normally whenever the
source is a string, None, or exposes a name attribute (and raises otherwise,
per the counterexample); with a resolvable source, a response lacking usage
counts still returns normally with a diagnostic on the error channel;
log_event returns normally whenever its kwargs encode under the placeholder
default (and raises otherwise); and the four fully guarded operations
log_new_agent, log_new_wrapper, log_new_client and log_function_use convert
any internal failure into a single error-channel diagnostic and return. -/
theorem C1_fault_containment_amended :
    (∀ st now tz tid invocation_id client_id wrapper_id source request response
        is_cached cost start_time,
      sourceNameResolvable source = true →
      ∃ out, OtelLogger.log_chat_completion st now tz tid invocation_id client_id
          wrapper_id source request response is_cached cost start_time = .ok out) ∧
    (∀ st now tz tid invocation_id client_id wrapper_id source request response
        is_cached cost start_time,
      sourceNameResolvable source = true →
      response.getattr "usage" = Option.none →
      ∃ m, OtelLogger.log_chat_completion st now tz tid invocation_id client_id
          wrapper_id source request response is_cached cost start_time
        = .ok { emits := [.err m], spans := [], stdout := [] }) ∧
    (∀ st now tz tid source name kwargs,
      serializableKeysB (OtelLogger.kwargsDict kwargs) = true →
      ∃ out, OtelLogger.log_event st now tz tid source name kwargs = .ok out) ∧
    (∀ st now tid agent init_args e,
      OtelLogger.lnaBody st now tid agent = .error e →
      OtelLogger.log_new_agent st now tid agent init_args
        = { emits := [.err ("[otel_logger] Failed to log new agent: " ++ pyErrStr e)],
            spans := [], stdout := [] }) ∧
    (∀ st now tid wrapper init_args e,
      OtelLogger.lnwBody st now tid wrapper init_args = .error e →
      OtelLogger.log_new_wrapper st now tid wrapper init_args
        = { emits := [.err ("[otel_logger] Failed to log new wrapper " ++ pyErrStr e)],
            spans := [], stdout := [] }) ∧
    (∀ st now tid client wrapper init_args e,
      OtelLogger.lncBody st now tid client wrapper init_args = .error e →
      OtelLogger.log_new_client st now tid client wrapper init_args
        = { emits := [.err ("[otel_logger] Failed to log new client " ++ pyErrStr e)],
            spans := [], stdout := [] }) ∧
    (∀ st now tid source func args returns e,
      OtelLogger.lfuBody st now tid source args returns = .error e →
      OtelLogger.log_function_use st now tid source func args returns
        = { emits := [.err ("[otel_logger] Failed to log function use " ++ pyErrStr e)],
            spans := [], stdout := [] }) := by
  refine ⟨?_, ?_, ?_, ?_, ?_, ?_, ?_⟩
  · intro st now tz tid inv cid wid source request response isc cost stt h
    obtain ⟨sn, hsn⟩ := resolveSourceName_ok h
    unfold OtelLogger.log_chat_completion
    rw [hsn]
    exact ⟨_, rfl⟩
  · intro st now tz tid inv cid wid source request response isc cost stt h husage
    obtain ⟨sn, hsn⟩ := resolveSourceName_ok h
    have hb : OtelLogger.lccBody st now tz tid inv cid wid request response isc cost stt sn
        = .error (.attributeError (pyClassName response ++ " object has no attribute "
            ++ "usage")) := by
      simp [OtelLogger.lccBody, pyGetattrE, husage]
    unfold OtelLogger.log_chat_completion
    rw [hsn]
    dsimp only
    rw [hb]
    exact ⟨_, rfl⟩
  · intro st now tz tid source name kwargs h
    obtain ⟨j, hj⟩ := jsonDumps_ok pyEventDefault pyEventDefault_ok _ h
    unfold OtelLogger.log_event
    rw [hj]
    cases hA : isAgentVal source <;> simp [hA]
  · intro st now tid agent init_args e h
    unfold OtelLogger.log_new_agent
    rw [h]
  · intro st now tid wrapper init_args e h
    unfold OtelLogger.log_new_wrapper
    rw [h]
  · intro st now tid client wrapper init_args e h
    unfold OtelLogger.log_new_client
    rw [h]
  · intro st now tid source func args returns e h
    unfold OtelLogger.log_function_use
    rw [h]

/-- Claim C1, witness evaluation of the amended theorem: a call with a
usage-less string response returns normally, with the failure reported on
the error channel, and an event with string-keyed kwargs returns normally. -/
theorem C1_witness :
    (∃ out, OtelLogger.log_chat_completion sampleState "2024-01-01 00:00:01.000000" 0 7
        "11111111-2222-3333-4444-555555555555" 1 2 (.str "assistant") (.dict [])
        (.str "cached-response") 1 2 "2024-01-01 00:00:00.000000" = .ok out) ∧
    (∃ m, OtelLogger.log_chat_completion sampleState "2024-01-01 00:00:01.000000" 0 7
        "11111111-2222-3333-4444-555555555555" 1 2 (.str "assistant") (.dict [])
        (.str "cached-response") 1 2 "2024-01-01 00:00:00.000000"
      = .ok { emits := [.err m], spans := [], stdout := [] }) ∧
    (∃ out, OtelLogger.log_event sampleState "2024-01-01 00:00:01.000000" 0 7
        (.str "src") "received_message" [("message", .str "hi")] = .ok out) :=
  ⟨C1_fault_containment_amended.1 sampleState "2024-01-01 00:00:01.000000" 0 7
     "11111111-2222-3333-4444-555555555555" 1 2 (.str "assistant") (.dict [])
     (.str "cached-response") 1 2 "2024-01-01 00:00:00.000000" rfl,
   C1_fault_containment_amended.2.1 sampleState "2024-01-01 00:00:01.000000" 0 7
     "11111111-2222-3333-4444-555555555555" 1 2 (.str "assistant") (.dict [])
     (.str "cached-response") 1 2 "2024-01-01 00:00:00.000000" rfl rfl,
   C1_fault_containment_amended.2.2.1 sampleState "2024-01-01 00:00:01.000000" 0 7
     (.str "src") "received_message" [("message", .str "hi")] rfl⟩

/-! ## Claim C10 -/

/-- The guarded agent branch of log_event never writes to stdout itself. -/
theorem leAgentBody_stdout {st : LoggerState} {now : String} {tz : Int} {tid : Nat}
    {source : PyVal} {name : String} {kwargs : List (String × PyVal)}
    {json_args : String} {o : OpOut}
    (h : OtelLogger.leAgentBody st now tz tid source name kwargs json_args = .ok o) :
    o.stdout = [] := by
  unfold OtelLogger.leAgentBody at h
  split at h
  · exact absurd h (by simp)
  · split at h
    · exact absurd h (by simp)
    · split at h
      · exact absurd h (by simp)
      · simp only [Except.ok.injEq] at h
        subst h
        rfl

/-- The guarded non-agent branch of log_event never writes to stdout. -/
theorem leOtherBody_stdout {st : LoggerState} {now : String} {tid : Nat}
    {source : PyVal} {name : String} {json_args : String} {o : OpOut}
    (h : OtelLogger.leOtherBody st now tid source name json_args = .ok o) :
    o.stdout = [] := by
  unfold OtelLogger.leOtherBody at h
  split at h
  · exact absurd h (by simp)
  · simp only [Except.ok.injEq] at h
    subst h
    rfl

/-- Claim C10, counterexample: a log_event call whose kwargs contain a
mapping with a non-scalar key raises TypeError before the print statement
runs, so this call writes nothing to stdout; the printing is therefore not
performed on every call. -/
theorem C10_counterexample :
    OtelLogger.log_event sampleState "2024-01-01 00:00:01.000000" 0 7 (.str "src") "evt"
        [("x", .dict [(.obj "K" "mymod" 1 false [], .int 1)])]
      = .error (.typeError "keys must be str, int, float, bool or None, not K") := rfl

/-- Claim C10, amended: every log_event call whose kwargs encode under the
placeholder default (in particular, all nested mapping keys scalar) returns
normally and writes exactly the raw, unredacted keyword-argument mapping to
stdout, for every source and independently of whether the guarded record
construction succeeds; a call whose kwargs do not encode raises before
printing. -/
theorem C10_log_event_stdout_amended (st : LoggerState) (now : String) (tz : Int)
    (tid : Nat) (source : PyVal) (name : String) (kwargs : List (String × PyVal))
    (h : serializableKeysB (OtelLogger.kwargsDict kwargs) = true) :
    ∃ out, OtelLogger.log_event st now tz tid source name kwargs = .ok out ∧
      out.stdout = [OtelLogger.kwargsDict kwargs] := by
  obtain ⟨j, hj⟩ := jsonDumps_ok pyEventDefault pyEventDefault_ok _ h
  unfold OtelLogger.log_event
  rw [hj]
  cases hA : isAgentVal source with
  | true =>
      simp only [hA, if_true]
      refine ⟨_, rfl, ?_⟩
      simp only [mergeOut]
      cases hr : OtelLogger.leAgentBody st now tz tid source name kwargs (renderJson j) with
      | ok o => simp [leAgentBody_stdout hr]
      | error e => simp
  | false =>
      simp only [hA, Bool.false_eq_true, if_false]
      refine ⟨_, rfl, ?_⟩
      simp only [mergeOut]
      cases hr : OtelLogger.leOtherBody st now tid source name (renderJson j) with
      | ok o => simp [leOtherBody_stdout hr]
      | error e => simp

/-- Claim C10, witness evaluation of the amended theorem at an agent source
whose guarded branch fails (the agent has no name attribute): the raw
kwargs are still printed. -/
theorem C10_witness :
    ∃ out, OtelLogger.log_event sampleState "2024-01-01 00:00:01.000000" 0 7
        (.obj "GroupChatManager" "autogen" 21 true []) "received_message"
        [("message", .str "hi"), ("sender", .str "user")] = .ok out ∧
      out.stdout = [OtelLogger.kwargsDict
        [("message", .str "hi"), ("sender", .str "user")]] :=
  C10_log_event_stdout_amended sampleState "2024-01-01 00:00:01.000000" 0 7
    (.obj "GroupChatManager" "autogen" 21 true []) "received_message"
    [("message", .str "hi"), ("sender", .str "user")] rfl

/-! ## Claim C4 -/

theorem jsonDumps_dict_ok {d : PyVal → Except PyErr String} {kvs : List (PyVal × PyVal)}
    {j : Json} (h : jsonDumps d (.dict kvs) = .ok j) :
    ∃ es, jsonDumpsEntries d kvs = .ok es ∧ j = .obj es := by
  simp only [jsonDumps] at h
  cases he : jsonDumpsEntries d kvs with
  | ok es =>
      rw [he] at h
      simp only [Except.ok.injEq] at h
      exact ⟨es, rfl, h.symm⟩
  | error e =>
      rw [he] at h
      exact absurd h (by simp)

/-- When no mapping key of the dict coerces to the given field name, the
dumped object has no such field. -/
theorem jsonDumpsEntries_lookup_none (d : PyVal → Except PyErr String) (k : String) :
    ∀ (kvs : List (PyVal × PyVal)) {es : List (String × Json)},
      jsonDumpsEntries d kvs = .ok es →
      kvs.all (fun kv => !(k == jsonKeyStrD kv.1)) = true →
      List.lookup k es = Option.none
  | [], es, h, _ => by
      simp only [jsonDumpsEntries, Except.ok.injEq] at h
      subst h
      rfl
  | (kk, v) :: r, es, h, hall => by
      simp only [jsonDumpsEntries] at h
      cases hk : jsonKeyStr kk with
      | error e => rw [hk] at h; exact absurd h (by simp)
      | ok ks =>
          rw [hk] at h
          cases hv : jsonDumps d v with
          | error e => rw [hv] at h; exact absurd h (by simp)
          | ok jv =>
              rw [hv] at h
              cases hr : jsonDumpsEntries d r with
              | error e => rw [hr] at h; exact absurd h (by simp)
              | ok es2 =>
                  rw [hr] at h
                  simp only [Except.ok.injEq] at h
                  subst h
                  have hall2 : (!(k == jsonKeyStrD kk)) = true ∧
                      r.all (fun kv => !(k == jsonKeyStrD kv.1)) = true := by
                    simpa [List.all_cons, Bool.and_eq_true] using hall
                  have hks : (k == ks) = false := by
                    have h1 := hall2.1
                    have h2 : jsonKeyStrD kk = ks := by simp [jsonKeyStrD, hk]
                    rw [h2] at h1
                    simpa using h1
                  simp only [List.lookup, hks]
                  exact jsonDumpsEntries_lookup_none d k r hr hall2.2

set_option maxHeartbeats 1000000 in
/-- When the first entry whose coerced key equals the field name carries a
string literal, the dumped object maps the field to that JSON string. -/
theorem jsonDumpsEntries_lookup_strval (d : PyVal → Except PyErr String) (k s : String) :
    ∀ (kvs : List (PyVal × PyVal)) {es : List (String × Json)},
      jsonDumpsEntries d kvs = .ok es →
      firstStrVal k kvs = some s →
      List.lookup k es = some (.str s)
  | [], _, _, hf => by simp [firstStrVal] at hf
  | (kk, v) :: r, es, h, hf => by
      simp only [jsonDumpsEntries] at h
      cases hk : jsonKeyStr kk with
      | error e => rw [hk] at h; exact absurd h (by simp)
      | ok ks =>
          rw [hk] at h
          cases hv : jsonDumps d v with
          | error e => rw [hv] at h; exact absurd h (by simp)
          | ok jv =>
              rw [hv] at h
              cases hr : jsonDumpsEntries d r with
              | error e => rw [hr] at h; exact absurd h (by simp)
              | ok es2 =>
                  rw [hr] at h
                  simp only [Except.ok.injEq] at h
                  subst h
                  have hkd : jsonKeyStrD kk = ks := by simp [jsonKeyStrD, hk]
                  simp only [firstStrVal] at hf
                  rw [hkd] at hf
                  cases hc : (k == ks) with
                  | true =>
                      rw [hc] at hf
                      dsimp only at hf
                      cases v with
                      | str t =>
                          have ht : t = s := Option.some.inj hf
                          subst ht
                          have hjv : jv = .str t := by
                            rw [show jsonDumps d (.str t) = Except.ok (Json.str t) from rfl] at hv
                            exact (Except.ok.inj hv).symm
                          simp only [List.lookup, hc, hjv]
                      | none => exact Option.noConfusion hf
                      | bool b => exact Option.noConfusion hf
                      | int n => exact Option.noConfusion hf
                      | list xs => exact Option.noConfusion hf
                      | dict kvs2 => exact Option.noConfusion hf
                      | obj cn mn oid ia attrs => exact Option.noConfusion hf
                  | false =>
                      rw [hc] at hf
                      dsimp only at hf
                      simp only [List.lookup, hc]
                      exact jsonDumpsEntries_lookup_strval d k s r hr hf

/-- The successful body of log_new_agent emits exactly one structured
record, dumped from the fixed seven-field dict. -/
theorem lnaBody_shape {st : LoggerState} {now : String} {tid : Nat} {agent : PyVal}
    {out : OpOut} (h : OtelLogger.lnaBody st now tid agent = .ok out) :
    ∃ wv es,
      jsonDumpsEntries pyNoDefault
        [(.str "id", .int (pyId agent)),
         (.str "agent_name", OtelLogger.lnaAgentName agent),
         (.str "wrapper_id", wv),
         (.str "session_id", .str st.session_id),
         (.str "current_time", .str now),
         (.str "agent_type", .str (pyClassName agent)),
         (.str "thread_id", .int tid)] = .ok es ∧
      out = { emits := [.info (.obj es)], spans := [], stdout := [] } := by
  unfold OtelLogger.lnaBody at h
  split at h
  · exact absurd h (by simp)
  · rename_i wv hwv
    split at h
    · exact absurd h (by simp)
    · rename_i j hj
      obtain ⟨es, hes, hjes⟩ := jsonDumps_dict_ok hj
      simp only [Except.ok.injEq] at h
      exact ⟨wv, es, hes, by rw [← h, hjes]⟩

/-- The successful body of log_new_wrapper emits exactly one structured
record, dumped from the fixed five-field dict. -/
theorem lnwBody_shape {st : LoggerState} {now : String} {tid : Nat}
    {wrapper init_args : PyVal} {out : OpOut}
    (h : OtelLogger.lnwBody st now tid wrapper init_args = .ok out) :
    ∃ argsJ es,
      jsonDumpsEntries pyNoDefault
        [(.str "wrapper_id", .int (pyId wrapper)),
         (.str "session_id", .str st.session_id),
         (.str "json_state", .str (renderJson argsJ)),
         (.str "timestamp", .str now),
         (.str "thread_id", .int tid)] = .ok es ∧
      out = { emits := [.info (.obj es)], spans := [], stdout := [] } := by
  unfold OtelLogger.lnwBody at h
  split at h
  · exact absurd h (by simp)
  · rename_i argsJ hargs
    split at h
    · exact absurd h (by simp)
    · rename_i j hj
      obtain ⟨es, hes, hjes⟩ := jsonDumps_dict_ok hj
      simp only [Except.ok.injEq] at h
      exact ⟨argsJ, es, hes, by rw [← h, hjes]⟩

/-- The successful body of log_new_client emits exactly one structured
record, dumped from the fixed seven-field dict. -/
theorem lncBody_shape {st : LoggerState} {now : String} {tid : Nat}
    {client wrapper init_args : PyVal} {out : OpOut}
    (h : OtelLogger.lncBody st now tid client wrapper init_args = .ok out) :
    ∃ initJ es,
      jsonDumpsEntries pyNoDefault
        [(.str "client_id", .int (pyId client)),
         (.str "wrapper_id", .int (pyId wrapper)),
         (.str "session_id", .str st.session_id),
         (.str "class", .str (pyClassName client)),
         (.str "json_state", .str (renderJson initJ)),
         (.str "timestamp", .str now),
         (.str "thread_id", .int tid)] = .ok es ∧
      out = { emits := [.info (.obj es)], spans := [], stdout := [] } := by
  unfold OtelLogger.lncBody at h
  split at h
  · exact absurd h (by simp)
  · rename_i initJ hinit
    split at h
    · exact absurd h (by simp)
    · rename_i j hj
      obtain ⟨es, hes, hjes⟩ := jsonDumps_dict_ok hj
      simp only [Except.ok.injEq] at h
      exact ⟨initJ, es, hes, by rw [← h, hjes]⟩

/-- The successful body of log_chat_completion emits exactly one structured
record, dumped from the fixed fourteen-field dict, whose keys do not
include session_id. -/
theorem lccBody_emits {st : LoggerState} {now : String} {tz : Int} {tid : Nat}
    {invocation_id : String} {client_id wrapper_id : Int}
    {request response : PyVal} {is_cached cost : Int} {start_time : String}
    {source_name : PyVal} {out : OpOut}
    (h : OtelLogger.lccBody st now tz tid invocation_id client_id wrapper_id request
        response is_cached cost start_time source_name = .ok out) :
    ∃ pt ct tt es,
      jsonDumpsEntries pyNoDefault
        [(.str "invocation_id", .str invocation_id),
         (.str "client_id", .int client_id),
         (.str "wrapper_id", .int wrapper_id),
         (.str "request", to_dict request []),
         (.str "response", .str (pyStr response)),
         (.str "is_cached", .int is_cached),
         (.str "cost", .int cost),
         (.str "start_time", .str start_time),
         (.str "end_time", .str now),
         (.str "thread_id", .int tid),
         (.str "source_name", source_name),
         (.str "prompt_tokens", pt),
         (.str "completion_tokens", ct),
         (.str "total_tokens", tt)] = .ok es ∧
      out.emits = [.info (.obj es)] := by
  unfold OtelLogger.lccBody at h
  split at h
  · exact absurd h (by simp)
  · rename_i usage husage
    split at h
    · exact absurd h (by simp)
    · rename_i pt hpt
      split at h
      · exact absurd h (by simp)
      · rename_i ct hct
        split at h
        · exact absurd h (by simp)
        · rename_i tt htt
          split at h
          · exact absurd h (by simp)
          · rename_i j hj
            rw [OtelLogger.lccRecord] at hj
            obtain ⟨es, hes, hjes⟩ := jsonDumps_dict_ok hj
            split at h
            · exact absurd h (by simp)
            · split at h
              · exact absurd h (by simp)
              · simp only [Except.ok.injEq] at h
                exact ⟨pt, ct, tt, es, hes, by rw [← h, hjes]⟩

/-- The successful agent branch of log_event emits exactly one structured
record, dumped from the fixed eight-field dict. -/
theorem leAgentBody_emits {st : LoggerState} {now : String} {tz : Int} {tid : Nat}
    {source : PyVal} {name : String} {kwargs : List (String × PyVal)}
    {json_args : String} {out : OpOut}
    (h : OtelLogger.leAgentBody st now tz tid source name kwargs json_args = .ok out) :
    ∃ es,
      jsonDumpsEntries pyNoDefault
        [(.str "source_id", .int (pyId source)),
         (.str "source_name", OtelLogger.sourceNameField source),
         (.str "event_name", .str name),
         (.str "agent_module", .str (pyModule source)),
         (.str "agent_class", .str (pyClassName source)),
         (.str "json_state", .str json_args),
         (.str "timestamp", .str now),
         (.str "thread_id", .int tid)] = .ok es ∧
      out.emits = [.info (.obj es)] := by
  unfold OtelLogger.leAgentBody at h
  split at h
  · exact absurd h (by simp)
  · split at h
    · exact absurd h (by simp)
    · rename_i j hj
      obtain ⟨es, hes, hjes⟩ := jsonDumps_dict_ok hj
      split at h
      · exact absurd h (by simp)
      · simp only [Except.ok.injEq] at h
        exact ⟨es, hes, by rw [← h, hjes]⟩

/-- The successful non-agent branch of log_event emits exactly one
structured record, dumped from the fixed six-field dict. -/
theorem leOtherBody_emits {st : LoggerState} {now : String} {tid : Nat}
    {source : PyVal} {name : String} {json_args : String} {out : OpOut}
    (h : OtelLogger.leOtherBody st now tid source name json_args = .ok out) :
    ∃ es,
      jsonDumpsEntries pyNoDefault
        [(.str "source_id", .int (pyId source)),
         (.str "source_name", OtelLogger.sourceNameField source),
         (.str "event_name", .str name),
         (.str "json_state", .str json_args),
         (.str "timestamp", .str now),
         (.str "thread_id", .int tid)] = .ok es ∧
      out.emits = [.info (.obj es)] := by
  unfold OtelLogger.leOtherBody at h
  split at h
  · exact absurd h (by simp)
  · rename_i j hj
    obtain ⟨es, hes, hjes⟩ := jsonDumps_dict_ok hj
    simp only [Except.ok.injEq] at h
    exact ⟨es, hes, by rw [← h, hjes]⟩

/-- The successful body of log_function_use emits exactly one structured
record, dumped from the fixed eight-field dict. -/
theorem lfuBody_emits {st : LoggerState} {now : String} {tid : Nat}
    {source args returns : PyVal} {out : OpOut}
    (h : OtelLogger.lfuBody st now tid source args returns = .ok out) :
    ∃ ia rets es,
      jsonDumpsEntries pyNoDefault
        [(.str "source_id", .int (pyId source)),
         (.str "source_name", OtelLogger.sourceNameField source),
         (.str "agent_module", .str (pyModule source)),
         (.str "agent_class", .str (pyClassName source)),
         (.str "timestamp", .str now),
         (.str "thread_id", .int tid),
         (.str "input_args", .str ia),
         (.str "returns", .str rets)] = .ok es ∧
      out.emits = [.info (.obj es)] := by
  unfold OtelLogger.lfuBody at h
  split at h
  · exact absurd h (by simp)
  · rename_i ia hia
    split at h
    · exact absurd h (by simp)
    · rename_i rets hrets
      split at h
      · exact absurd h (by simp)
      · rename_i j hj
        obtain ⟨es, hes, hjes⟩ := jsonDumps_dict_ok hj
        simp only [Except.ok.injEq] at h
        exact ⟨ia, rets, es, hes, by rw [← h, hjes]⟩

/-- Claim C4, counterexample: a successful log_chat_completion call emits a
record that has no session_id field and does not contain the session id
string anywhere in its rendered JSON body, so not every record embeds the
session identifier. -/
theorem C4_counterexample :
    (match OtelLogger.log_chat_completion sampleState "2024-01-01 00:00:01.000000" 0 7
        "11111111-2222-3333-4444-555555555555" 1 2 (.str "assistant") (.dict [])
        (.obj "ChatCompletion" "openai" 11 false
          [("usage", .obj "CompletionUsage" "openai" 12 false
            [("prompt_tokens", .int 10), ("completion_tokens", .int 5),
             ("total_tokens", .int 15)])])
        0 2 "2024-01-01 00:00:00.000000" with
     | .ok out =>
         match out.emits with
         | [Emission.info rec] =>
             (lookupJ rec "session_id").isNone
               && !(strAppearsIn sampleState.session_id (renderJson rec))
         | _ => false
     | .error _ => false) = true := rfl

/-- Claim C4, amended: start returns the instance session id, and the
records of log_new_agent, log_new_wrapper and log_new_client embed that id
in their session_id field; but the records of log_chat_completion,
log_event and log_function_use carry no session_id field at all. -/
theorem C4_session_embedding_amended :
    (∀ st e, (OtelLogger.start st e).ret = st.session_id) ∧
    (∀ st now tid agent init_args,
      infoRecordsHaveSession st.session_id
        (OtelLogger.log_new_agent st now tid agent init_args).emits = true) ∧
    (∀ st now tid wrapper init_args,
      infoRecordsHaveSession st.session_id
        (OtelLogger.log_new_wrapper st now tid wrapper init_args).emits = true) ∧
    (∀ st now tid client wrapper init_args,
      infoRecordsHaveSession st.session_id
        (OtelLogger.log_new_client st now tid client wrapper init_args).emits = true) ∧
    (∀ st now tz tid invocation_id client_id wrapper_id source request response
        is_cached cost start_time,
      infoRecordsNoSession (exceptEmits (OtelLogger.log_chat_completion st now tz tid
        invocation_id client_id wrapper_id source request response is_cached cost
        start_time)) = true) ∧
    (∀ st now tz tid source name kwargs,
      infoRecordsNoSession
        (exceptEmits (OtelLogger.log_event st now tz tid source name kwargs)) = true) ∧
    (∀ st now tid source func args returns,
      infoRecordsNoSession
        (OtelLogger.log_function_use st now tid source func args returns).emits
          = true) := by
  refine ⟨?_, ?_, ?_, ?_, ?_, ?_, ?_⟩
  · intro st e
    cases e <;> rfl
  · intro st now tid agent init_args
    unfold OtelLogger.log_new_agent
    cases hb : OtelLogger.lnaBody st now tid agent with
    | error e => rfl
    | ok out =>
        obtain ⟨wv, es, hes, rfl⟩ := lnaBody_shape hb
        have hl := jsonDumpsEntries_lookup_strval pyNoDefault "session_id"
          st.session_id _ hes rfl
        simp [infoRecordsHaveSession, lookupJ, hl]
  · intro st now tid wrapper init_args
    unfold OtelLogger.log_new_wrapper
    cases hb : OtelLogger.lnwBody st now tid wrapper init_args with
    | error e => rfl
    | ok out =>
        obtain ⟨argsJ, es, hes, rfl⟩ := lnwBody_shape hb
        have hl := jsonDumpsEntries_lookup_strval pyNoDefault "session_id"
          st.session_id _ hes rfl
        simp [infoRecordsHaveSession, lookupJ, hl]
  · intro st now tid client wrapper init_args
    unfold OtelLogger.log_new_client
    cases hb : OtelLogger.lncBody st now tid client wrapper init_args with
    | error e => rfl
    | ok out =>
        obtain ⟨initJ, es, hes, rfl⟩ := lncBody_shape hb
        have hl := jsonDumpsEntries_lookup_strval pyNoDefault "session_id"
          st.session_id _ hes rfl
        simp [infoRecordsHaveSession, lookupJ, hl]
  · intro st now tz tid invocation_id client_id wrapper_id source request response
      is_cached cost start_time
    unfold OtelLogger.log_chat_completion
    cases hr : OtelLogger.resolveSourceName source with
    | error e => rfl
    | ok sn =>
        dsimp only
        cases hb : OtelLogger.lccBody st now tz tid invocation_id client_id wrapper_id
            request response is_cached cost start_time sn with
        | error e => rfl
        | ok out =>
            obtain ⟨pt, ct, tt, es, hes, hemits⟩ := lccBody_emits hb
            have hl := jsonDumpsEntries_lookup_none pyNoDefault "session_id" _ hes rfl
            simp [infoRecordsNoSession, exceptEmits, hemits, lookupJ, hl]
  · intro st now tz tid source name kwargs
    unfold OtelLogger.log_event
    cases hd : jsonDumps pyEventDefault (OtelLogger.kwargsDict kwargs) with
    | error e => rfl
    | ok j =>
        dsimp only
        cases hA : isAgentVal source with
        | true =>
            simp only [hA, if_true]
            cases hb : OtelLogger.leAgentBody st now tz tid source name kwargs
                (renderJson j) with
            | error e => simp [infoRecordsNoSession, exceptEmits, mergeOut]
            | ok o =>
                obtain ⟨es, hes, hemits⟩ := leAgentBody_emits hb
                have hl := jsonDumpsEntries_lookup_none pyNoDefault "session_id" _ hes rfl
                simp [infoRecordsNoSession, exceptEmits, mergeOut, hemits, lookupJ, hl]
        | false =>
            simp only [hA, Bool.false_eq_true, if_false]
            cases hb : OtelLogger.leOtherBody st now tid source name (renderJson j) with
            | error e => simp [infoRecordsNoSession, exceptEmits, mergeOut]
            | ok o =>
                obtain ⟨es, hes, hemits⟩ := leOtherBody_emits hb
                have hl := jsonDumpsEntries_lookup_none pyNoDefault "session_id" _ hes rfl
                simp [infoRecordsNoSession, exceptEmits, mergeOut, hemits, lookupJ, hl]
  · intro st now tid source func args returns
    unfold OtelLogger.log_function_use
    cases hb : OtelLogger.lfuBody st now tid source args returns with
    | error e => rfl
    | ok out =>
        obtain ⟨ia, rets, es, hes, hemits⟩ := lfuBody_emits hb
        have hl := jsonDumpsEntries_lookup_none pyNoDefault "session_id" _ hes rfl
        simp [infoRecordsNoSession, hemits, lookupJ, hl]

/-! ## Claims C6 and C7 -/

/-- The full success path of log_chat_completion: with a string-named
source, an integer-valued usage triple, an encodable request and two
parseable timestamps, the call emits exactly the fixed record and the
llm_span with explicit instants. -/
theorem lcc_success_shape (st : LoggerState) (now : String) (tz : Int) (tid : Nat)
    (invocation_id : String) (client_id wrapper_id : Int)
    (source request response usage : PyVal) (is_cached cost : Int)
    (start_time : String) (sname : String) (p c t : Int) (reqJ : Json)
    (sdt edt : DateTime)
    (hsrc : OtelLogger.resolveSourceName source = .ok (.str sname))
    (husage : response.getattr "usage" = some usage)
    (hpt : usage.getattr "prompt_tokens" = some (.int p))
    (hct : usage.getattr "completion_tokens" = some (.int c))
    (htt : usage.getattr "total_tokens" = some (.int t))
    (hreq : jsonDumps pyNoDefault (to_dict request []) = .ok reqJ)
    (hst : strptime start_time = .ok sdt)
    (hnow : strptime now = .ok edt) :
    OtelLogger.log_chat_completion st now tz tid invocation_id client_id wrapper_id
        source request response is_cached cost start_time
      = .ok { emits := [.info (lccRecordJson invocation_id client_id wrapper_id reqJ
                response is_cached cost start_time now tid sname p c t)],
              spans := [lccSpanOf (lccRecordJson invocation_id client_id wrapper_id reqJ
                response is_cached cost start_time now tid sname p c t)
                tz sdt edt cost sname p c t],
              stdout := [] } := by
  unfold OtelLogger.log_chat_completion
  rw [hsrc]
  dsimp only
  have h1 : pyGetattrE response "usage" = .ok usage := by
    simp [pyGetattrE, husage]
  have h2 : pyGetattrE usage "prompt_tokens" = .ok (.int p) := by
    simp [pyGetattrE, hpt]
  have h3 : pyGetattrE usage "completion_tokens" = .ok (.int c) := by
    simp [pyGetattrE, hct]
  have h4 : pyGetattrE usage "total_tokens" = .ok (.int t) := by
    simp [pyGetattrE, htt]
  have h5 : jsonDumps pyNoDefault (OtelLogger.lccRecord st now tid invocation_id
      client_id wrapper_id request response is_cached cost start_time
      (.str sname) (.int p) (.int c) (.int t))
      = .ok (lccRecordJson invocation_id client_id wrapper_id reqJ response is_cached
          cost start_time now tid sname p c t) := by
    rw [OtelLogger.lccRecord, lccRecordJson]
    simp only [jsonDumps, jsonDumpsEntries, jsonKeyStr, hreq]
  unfold OtelLogger.lccBody
  rw [h1]
  dsimp only
  rw [h2]
  dsimp only
  rw [h3]
  dsimp only
  rw [h4]
  dsimp only
  rw [h5]
  dsimp only
  rw [hst]
  dsimp only
  rw [hnow]
  dsimp only
  rw [lccSpanOf]
  rfl

/-- Claim C6: a log_chat_completion call whose response carries the three
usage counts and whose cost is supplied (and which otherwise completes:
string-named source, encodable request, parseable timestamps) emits one log
record containing all three token counts and the cost verbatim, and one
span carrying the same three counts plus cost as individual numeric
attributes. -/
theorem C6_usage_metrics (st : LoggerState) (now : String) (tz : Int) (tid : Nat)
    (invocation_id : String) (client_id wrapper_id : Int)
    (source request response usage : PyVal) (is_cached cost : Int)
    (start_time : String) (sname : String) (p c t : Int) (reqJ : Json)
    (sdt edt : DateTime)
    (hsrc : OtelLogger.resolveSourceName source = .ok (.str sname))
    (husage : response.getattr "usage" = some usage)
    (hpt : usage.getattr "prompt_tokens" = some (.int p))
    (hct : usage.getattr "completion_tokens" = some (.int c))
    (htt : usage.getattr "total_tokens" = some (.int t))
    (hreq : jsonDumps pyNoDefault (to_dict request []) = .ok reqJ)
    (hst : strptime start_time = .ok sdt)
    (hnow : strptime now = .ok edt) :
    ∃ rec sp,
      OtelLogger.log_chat_completion st now tz tid invocation_id client_id wrapper_id
          source request response is_cached cost start_time
        = .ok { emits := [.info rec], spans := [sp], stdout := [] } ∧
      lookupJ rec "prompt_tokens" = some (.num p) ∧
      lookupJ rec "completion_tokens" = some (.num c) ∧
      lookupJ rec "total_tokens" = some (.num t) ∧
      lookupJ rec "cost" = some (.num cost) ∧
      List.lookup "prompt_tokens" sp.attrs = some (.num p) ∧
      List.lookup "completion_tokens" sp.attrs = some (.num c) ∧
      List.lookup "total_tokens" sp.attrs = some (.num t) ∧
      List.lookup "cost" sp.attrs = some (.num cost) := by
  refine ⟨_, _,
    lcc_success_shape st now tz tid invocation_id client_id wrapper_id source request
      response usage is_cached cost start_time sname p c t reqJ sdt edt
      hsrc husage hpt hct htt hreq hst hnow, ?_, ?_, ?_, ?_, ?_, ?_, ?_, ?_⟩ <;> rfl

/-- Claim C7, counterexample: when the supplied start_time lies in the
future of the call-time clock, the recorded llm_span ends strictly before
it starts, so end_instant is not always at or after start_instant. -/
theorem C7_counterexample :
    spanEndBeforeStart (OtelLogger.log_chat_completion sampleState
      "2024-01-01 00:00:00.000000" 0 7 "11111111-2222-3333-4444-555555555555" 1 2
      (.str "assistant") (.dict []) sampleResponse 0 2
      "2025-06-01 12:00:00.000000") = true := rfl

/-- Claim C7, amended: on the success path the span start instant is the
parsed supplied start_time converted to nanoseconds since the epoch and the
end instant is computed the same way from the call-time clock string; the
end is at or after the start whenever the call-time instant is not earlier
than the supplied start_time in calendar order, and with a future
start_time the order reverses as in the counterexample. -/
theorem C7_span_instants_amended (st : LoggerState) (now : String) (tz : Int)
    (tid : Nat) (invocation_id : String) (client_id wrapper_id : Int)
    (source request response usage : PyVal) (is_cached cost : Int)
    (start_time : String) (sname : String) (p c t : Int) (reqJ : Json)
    (sdt edt : DateTime)
    (hsrc : OtelLogger.resolveSourceName source = .ok (.str sname))
    (husage : response.getattr "usage" = some usage)
    (hpt : usage.getattr "prompt_tokens" = some (.int p))
    (hct : usage.getattr "completion_tokens" = some (.int c))
    (htt : usage.getattr "total_tokens" = some (.int t))
    (hreq : jsonDumps pyNoDefault (to_dict request []) = .ok reqJ)
    (hst : strptime start_time = .ok sdt)
    (hnow : strptime now = .ok edt) :
    ∃ rec sp,
      OtelLogger.log_chat_completion st now tz tid invocation_id client_id wrapper_id
          source request response is_cached cost start_time
        = .ok { emits := [.info rec], spans := [sp], stdout := [] } ∧
      sp.startNs = some (toNs tz sdt) ∧
      sp.endNs = some (toNs tz edt) ∧
      (dtKey sdt ≤ dtKey edt → toNs tz sdt ≤ toNs tz edt) := by
  refine ⟨_, _,
    lcc_success_shape st now tz tid invocation_id client_id wrapper_id source request
      response usage is_cached cost start_time sname p c t reqJ sdt edt
      hsrc husage hpt hct htt hreq hst hnow, rfl, rfl, ?_⟩
  intro hk
  exact toNs_mono tz sdt edt (strptime_valid hst) (strptime_valid hnow) hk

/-- Claim C6, witness evaluation of the end-to-end scenario. -/
theorem C6_witness :
    ∃ rec sp,
      OtelLogger.log_chat_completion sampleState "2024-01-01 00:00:01.000000" 0 7
          "11111111-2222-3333-4444-555555555555" 1 2 (.str "assistant") (.dict [])
          sampleResponse 0 2 "2024-01-01 00:00:00.000000"
        = .ok { emits := [.info rec], spans := [sp], stdout := [] } ∧
      lookupJ rec "prompt_tokens" = some (.num 10) ∧
      lookupJ rec "completion_tokens" = some (.num 5) ∧
      lookupJ rec "total_tokens" = some (.num 15) ∧
      lookupJ rec "cost" = some (.num 2) ∧
      List.lookup "prompt_tokens" sp.attrs = some (.num 10) ∧
      List.lookup "completion_tokens" sp.attrs = some (.num 5) ∧
      List.lookup "total_tokens" sp.attrs = some (.num 15) ∧
      List.lookup "cost" sp.attrs = some (.num 2) :=
  C6_usage_metrics sampleState "2024-01-01 00:00:01.000000" 0 7
    "11111111-2222-3333-4444-555555555555" 1 2 (.str "assistant") (.dict [])
    sampleResponse
    (.obj "CompletionUsage" "openai" 12 false
      [("prompt_tokens", .int 10), ("completion_tokens", .int 5),
       ("total_tokens", .int 15)])
    0 2 "2024-01-01 00:00:00.000000" "assistant" 10 5 15 (.obj [])
    ⟨2024, 1, 1, 0, 0, 0, 0⟩ ⟨2024, 1, 1, 0, 0, 1, 0⟩
    rfl rfl rfl rfl rfl rfl rfl rfl

/-- Claim C7, witness evaluation of the amended theorem, with the
monotonicity hypothesis discharged at the concrete instants. -/
theorem C7_witness :
    (∃ rec sp,
      OtelLogger.log_chat_completion sampleState "2024-01-01 00:00:01.000000" 0 7
          "11111111-2222-3333-4444-555555555555" 1 2 (.str "assistant") (.dict [])
          sampleResponse 0 2 "2024-01-01 00:00:00.000000"
        = .ok { emits := [.info rec], spans := [sp], stdout := [] } ∧
      sp.startNs = some (toNs 0 ⟨2024, 1, 1, 0, 0, 0, 0⟩) ∧
      sp.endNs = some (toNs 0 ⟨2024, 1, 1, 0, 0, 1, 0⟩)) ∧
    toNs 0 (⟨2024, 1, 1, 0, 0, 0, 0⟩ : DateTime)
      ≤ toNs 0 (⟨2024, 1, 1, 0, 0, 1, 0⟩ : DateTime) := by
  obtain ⟨rec, sp, h1, h2, h3, h4⟩ :=
    C7_span_instants_amended sampleState "2024-01-01 00:00:01.000000" 0 7
      "11111111-2222-3333-4444-555555555555" 1 2 (.str "assistant") (.dict [])
      sampleResponse
      (.obj "CompletionUsage" "openai" 12 false
        [("prompt_tokens", .int 10), ("completion_tokens", .int 5),
         ("total_tokens", .int 15)])
      0 2 "2024-01-01 00:00:00.000000" "assistant" 10 5 15 (.obj [])
      ⟨2024, 1, 1, 0, 0, 0, 0⟩ ⟨2024, 1, 1, 0, 0, 1, 0⟩
      rfl rfl rfl rfl rfl rfl rfl rfl
  exact ⟨⟨rec, sp, h1, h2, h3⟩, h4 (by decide)⟩

end AutogenOtel
